import Mathlib

/-!
Tailoring marketplace: measurement engine

A shallow embedding of `client/src/utils/unitConversion.js` and of
`validateAllMeasurements` from
`client/src/components/measurements/MeasurementValidator.js`.

JavaScript numbers are idealised: a finite number is a rational (`JsValue.num`),
`NaN` is a value of its own, and the infinities are left out. The values a
measurement field or a function argument can hold are finite numbers, `NaN`,
the empty string, `null` and `undefined`; non-empty strings are left out (their
treatment would need the StringToNumber grammar).
-/

namespace UnitConversion

/-- JavaScript values handled by the measurement engine. -/
inductive JsValue where
  | num (q : ℚ)
  | nan
  | emptyString
  | null
  | undefined
deriving DecidableEq

namespace JsValue

/-- ToNumber: `none` stands for `NaN`. `Number("")` and `Number(null)` are `0`,
`Number(undefined)` is `NaN`. -/
def toNumber : JsValue → Option ℚ
  | num q => some q
  | nan => none
  | emptyString => some 0
  | null => some 0
  | undefined => none

/-- ToBoolean: `0`, `NaN`, `""`, `null` and `undefined` are falsy. -/
def truthy : JsValue → Bool
  | num q => decide (q ≠ 0)
  | _ => false

/-- Wraps the outcome of a numeric operation as a value. -/
def ofNumber : Option ℚ → JsValue
  | some q => num q
  | none => nan

/-- The operator `a / b` (operands coerced with ToNumber). A zero divisor would
give an infinity or `NaN` in JavaScript; it is mapped to `NaN` here and is not
reached by the functions below, whose divisors are non-zero. -/
def div (a b : JsValue) : JsValue :=
  match a.toNumber, b.toNumber with
  | some x, some y => if y = 0 then nan else num (x / y)
  | _, _ => nan

/-- The operator `a * b`. -/
def mul (a b : JsValue) : JsValue :=
  match a.toNumber, b.toNumber with
  | some x, some y => num (x * y)
  | _, _ => nan

/-- The operator `a < b`: false as soon as one side is `NaN`. -/
def lt (a b : JsValue) : Bool :=
  match a.toNumber, b.toNumber with
  | some x, some y => decide (x < y)
  | _, _ => false

/-- The operator `a <= b`. -/
def le (a b : JsValue) : Bool :=
  match a.toNumber, b.toNumber with
  | some x, some y => decide (x ≤ y)
  | _, _ => false

/-- The operator `a > b`. -/
def gt (a b : JsValue) : Bool := lt b a

/-- The operator `a >= b`. -/
def ge (a b : JsValue) : Bool := le b a

end JsValue

open JsValue

/-- The global `isNaN(v)`: `Number(v)` is `NaN`. -/
def isNaN (v : JsValue) : Bool := v.toNumber.isNone

/-- The global `parseFloat(v)`: the argument is turned into a string and its
decimal prefix is read. A finite number reads back as itself; `NaN`, `""`,
`"null"` and `"undefined"` have no decimal prefix. -/
def parseFloat : JsValue → JsValue
  | num q => num q
  | _ => nan

/-- Unit name `UNITS.INCHES`. -/
def INCHES : String := "inches"
/-- Unit name `UNITS.CENTIMETERS`. -/
def CENTIMETERS : String := "cm"
/-- Unit name `UNITS.FEET`. -/
def FEET : String := "feet"
/-- Unit name `UNITS.METERS`. -/
def METERS : String := "meters"

/-- The four unit names of `UNITS`. -/
def UNITS : List String := [INCHES, CENTIMETERS, FEET, METERS]

/-- Lookup `UNIT_SYMBOLS[unit]` as it prints inside a template literal: the
symbol of a unit, `undefined` for a name that is not a key. (A name inherited
from `Object.prototype` would print that member; such unit names are outside
the model.) -/
def UNIT_SYMBOLS (unit : String) : String :=
  if unit = INCHES then "in"
  else if unit = CENTIMETERS then "cm"
  else if unit = FEET then "ft"
  else if unit = METERS then "m"
  else "undefined"

/-- Lookup `CONVERSION_FACTORS[unit]`. A key that is not one of the four units
gives `undefined` (or an inherited object member), which is `NaN` in
arithmetic. -/
def CONVERSION_FACTORS (unit : String) : JsValue :=
  if unit = INCHES then num 1
  else if unit = CENTIMETERS then num 0.393701
  else if unit = FEET then num 12
  else if unit = METERS then num 39.3701
  else undefined

/-- Source function `convertUnit(value, fromUnit, toUnit)`. -/
def convertUnit (value : JsValue) (fromUnit toUnit : String) : JsValue :=
  if !value.truthy || isNaN value then num 0
  else if fromUnit = toUnit then value
  else
    let inInches := value.div (CONVERSION_FACTORS fromUnit)
    inInches.mul (CONVERSION_FACTORS toUnit)

/-- Digits printed by `toFixed` for the scaled integer `n` with `f` decimals:
at least `f + 1` digits, zero-padded on the left, and a point before the last
`f` of them. -/
def fixedDigits (f n : ℕ) : String :=
  let m := toString n
  let m := String.mk (List.replicate (f + 1 - m.length) '0') ++ m
  if f = 0 then m else m.take (m.length - f) ++ "." ++ m.drop (m.length - f)

/-- The scaled integer chosen by `toFixed`: the integer nearest to
`|q| * 10 ^ f`, the larger one on a tie. -/
def fixedScaled (f : ℕ) (q : ℚ) : ℕ := Int.toNat ⌊|q| * 10 ^ f + 1 / 2⌋

/-- Method `x.toFixed(f)` on a number. From `10 ^ 21` upwards JavaScript prints
in exponential form instead; that form is not modelled and the digits are
printed in full. Every receiver in the source is a number; the last case (a
TypeError in JavaScript) is not reached. -/
def toFixed (f : ℕ) : JsValue → String
  | num q => (if q < 0 then "-" else "") ++ fixedDigits f (fixedScaled f q)
  | nan => "NaN"
  | _ => ""

/-- The composite `parseFloat(x.toFixed(f))`: the number whose decimal digits
`toFixed` prints. -/
def parseFloatToFixed (f : ℕ) : JsValue → JsValue
  | num q => num ((if q < 0 then -1 else 1) * (fixedScaled f q : ℚ) / 10 ^ f)
  | _ => nan

/-- Source function `formatMeasurement(value, unit)`. -/
def formatMeasurement (value : JsValue) (unit : String) : String :=
  if !value.truthy || isNaN value then ""
  else
    let precision := if unit = CENTIMETERS || unit = METERS then 1 else 2
    toFixed precision (parseFloat value)

/-- Result object `{ isValid, message }` of `validateMeasurement`. -/
structure ValidationResult where
  isValid : Bool
  message : String
deriving DecidableEq, Repr

/-- An entry `{ min, max }` of the plausibility table (inches). -/
structure Range where
  min : ℕ
  max : ℕ
deriving DecidableEq, Repr

/-- Lookup `validationRanges[measurementType]` inside `validateMeasurement`.
A name inherited from `Object.prototype` gives an object without `min` and
`max`; both comparisons against `undefined` are false, so such a name ends in
the same valid result as a name without entry (`none`). -/
def validationRanges (measurementType : String) : Option Range :=
  if measurementType = "neck" then some ⟨10, 25⟩
  else if measurementType = "bust" then some ⟨20, 60⟩
  else if measurementType = "waist" then some ⟨20, 60⟩
  else if measurementType = "hip" then some ⟨25, 65⟩
  else if measurementType = "shoulder" then some ⟨12, 30⟩
  else if measurementType = "sleeve" then some ⟨15, 40⟩
  else if measurementType = "inseam" then some ⟨20, 40⟩
  else if measurementType = "outseam" then some ⟨30, 50⟩
  else if measurementType = "thigh" then some ⟨15, 35⟩
  else if measurementType = "calf" then some ⟨10, 25⟩
  else none

/-- Text of the out-of-range message of `validateMeasurement`. -/
def rangeMessage (measurementType unit : String) (range : Range) : String :=
  measurementType ++ " should be between " ++ toString range.min ++ "\" and "
    ++ toString range.max ++ "\" ("
    ++ formatMeasurement (convertUnit (num range.min) INCHES unit) unit ++ UNIT_SYMBOLS unit
    ++ " - "
    ++ formatMeasurement (convertUnit (num range.max) INCHES unit) unit ++ UNIT_SYMBOLS unit
    ++ ")"

/-- Source function `validateMeasurement(value, measurementType, unit)`. -/
def validateMeasurement (value : JsValue) (measurementType unit : String) : ValidationResult :=
  if !value.truthy || isNaN value then ⟨true, ""⟩
  else
    let numValue := parseFloat value
    if numValue.le (num 0) then ⟨false, "Measurement must be positive"⟩
    else
      let inInches := convertUnit numValue unit INCHES
      match validationRanges measurementType with
      | none => ⟨true, ""⟩
      | some range =>
        if inInches.lt (num range.min) || inInches.gt (num range.max) then
          ⟨false, rangeMessage measurementType unit range⟩
        else ⟨true, ""⟩

/-- Result object of `calculateBMI`. -/
structure BMIResult where
  bmi : JsValue
  category : String
  heightInMeters : JsValue
  weightInKg : JsValue
deriving DecidableEq

/-- Source function `calculateBMI(height, heightUnit, weight)`; `none` is
`null`. -/
def calculateBMI (height : JsValue) (heightUnit : String) (weight : JsValue) : Option BMIResult :=
  if !height.truthy || !weight.truthy || isNaN height || isNaN weight then none
  else
    let heightInMeters := convertUnit height heightUnit METERS
    let weightInKg := weight.mul (num 0.453592)
    let bmi := weightInKg.div (heightInMeters.mul heightInMeters)
    let category :=
      if bmi.lt (num 18.5) then "Underweight"
      else if bmi.lt (num 25) then "Normal weight"
      else if bmi.lt (num 30) then "Overweight"
      else "Obese"
    some
      { bmi := parseFloatToFixed 1 bmi
        category := category
        heightInMeters := parseFloatToFixed 2 heightInMeters
        weightInKg := parseFloatToFixed 1 weightInKg }

end UnitConversion

namespace MeasurementValidator
open UnitConversion UnitConversion.JsValue

/-- An entry `{ min, max, typical: [lo, hi] }` of `measurementRanges`. -/
structure MeasurementRange where
  min : ℕ
  max : ℕ
  typicalLo : ℕ
  typicalHi : ℕ
deriving DecidableEq, Repr

/-- Table `measurementRanges` of the component, in the order of its keys. -/
def measurementRanges : List (String × MeasurementRange) :=
  [ ("neck", ⟨12, 20, 14, 17⟩),
    ("bust", ⟨28, 50, 32, 42⟩),
    ("waist", ⟨24, 45, 28, 36⟩),
    ("hip", ⟨30, 50, 34, 44⟩),
    ("shoulder", ⟨14, 22, 16, 19⟩),
    ("sleeve", ⟨20, 28, 23, 26⟩),
    ("inseam", ⟨26, 36, 30, 34⟩),
    ("outseam", ⟨36, 48, 40, 44⟩),
    ("thigh", ⟨18, 30, 20, 26⟩),
    ("calf", ⟨12, 20, 14, 17⟩),
    ("height", ⟨48, 84, 60, 72⟩) ]

/-- A measurement set as an object: the value stored under each field name,
`undefined` for a field that is not there. -/
abbrev MeasurementSet := String → JsValue

/-- An element `{ field, message, severity }` of `issues` and `warnings`. -/
structure Issue where
  field : String
  message : String
  severity : String
deriving DecidableEq, Repr

/-- An element `{ type, message }` of `suggestions`. -/
structure Suggestion where
  type : String
  message : String
deriving DecidableEq, Repr

/-- The value stored in `results.details[field]`. -/
structure FieldDetail where
  value : JsValue
  validation : ValidationResult
  inRange : Bool
  inTypicalRange : Bool
deriving DecidableEq

/-- The object `results` of `validateAllMeasurements`; `details` lists the
entries in the order they are written. -/
structure Results where
  overall : String
  issues : List Issue
  warnings : List Issue
  suggestions : List Suggestion
  score : ℤ
  details : List (String × FieldDetail)
deriving DecidableEq

/-- State of the first loop: `results`, `validCount`, `totalCount`. -/
structure LoopState where
  results : Results
  validCount : ℕ
  totalCount : ℕ
deriving DecidableEq

/-- Text of the warning pushed for a valid value outside the typical range. -/
def typicalMessage (field : String) (value : JsValue) (selectedUnit : String) : String :=
  field ++ " measurement ("
    ++ formatMeasurement (convertUnit value INCHES selectedUnit) selectedUnit
    ++ " " ++ UNIT_SYMBOLS selectedUnit ++ ") is outside typical range"

/-- Body of `Object.entries(measurementRanges).forEach(...)` for one entry. -/
def fieldStep (measurementSet : MeasurementSet) (selectedUnit : String)
    (st : LoopState) (entry : String × MeasurementRange) : LoopState :=
  let field := entry.1
  let range := entry.2
  if (measurementSet field).truthy && !isNaN (measurementSet field) then
    let value := parseFloat (measurementSet field)
    let validation := validateMeasurement value field INCHES
    let detail : FieldDetail :=
      { value := value
        validation := validation
        inRange := value.ge (num range.min) && value.le (num range.max)
        inTypicalRange := value.ge (num range.typicalLo) && value.le (num range.typicalHi) }
    let r1 : Results := { st.results with details := st.results.details ++ [(field, detail)] }
    let r2 : Results :=
      if validation.isValid then r1
      else { r1 with issues := r1.issues ++ [⟨field, validation.message, "error"⟩] }
    let r3 : Results :=
      if !detail.inTypicalRange && validation.isValid then
        { r2 with warnings := r2.warnings ++ [⟨field, typicalMessage field value selectedUnit, "warning"⟩] }
      else r2
    { results := r3
      validCount := if validation.isValid then st.validCount + 1 else st.validCount
      totalCount := st.totalCount + 1 }
  else st

/-- An element of `crossValidationChecks`, its `check()` already evaluated. -/
structure CrossCheck where
  check : Bool
  message : String
  severity : String
deriving DecidableEq, Repr

/-- The list `crossValidationChecks` for a measurement set. -/
def crossValidationChecks (measurementSet : MeasurementSet) : List CrossCheck :=
  [ { check := (measurementSet "waist").truthy && (measurementSet "hip").truthy
        && (measurementSet "waist").gt (measurementSet "hip")
      message := "Waist measurement is larger than hip measurement, which is unusual"
      severity := "warning" },
    { check := (measurementSet "bust").truthy && (measurementSet "waist").truthy
        && (measurementSet "bust").lt (measurementSet "waist")
      message := "Bust measurement is smaller than waist measurement, please verify"
      severity := "warning" },
    { check := (measurementSet "inseam").truthy && (measurementSet "outseam").truthy
        && (measurementSet "inseam").gt (measurementSet "outseam")
      message := "Inseam is longer than outseam, which is not possible"
      severity := "error" },
    { check := (measurementSet "thigh").truthy && (measurementSet "calf").truthy
        && (measurementSet "thigh").lt (measurementSet "calf")
      message := "Thigh measurement is smaller than calf measurement, please verify"
      severity := "warning" } ]

/-- Body of `crossValidationChecks.forEach(...)` for one check. -/
def crossStep (results : Results) (c : CrossCheck) : Results :=
  if c.check then
    if c.severity = "error" then
      { results with issues := results.issues ++ [⟨"cross-validation", c.message, c.severity⟩] }
    else
      { results with warnings := results.warnings ++ [⟨"cross-validation", c.message, c.severity⟩] }
  else results

/-- Function `Math.round` on a finite number: the nearest integer, the larger
one on a tie. -/
def mathRound (q : ℚ) : ℤ := ⌊q + 1 / 2⌋

/-- The score assignment `totalCount > 0 ? Math.round((validCount / totalCount) * 100) : 0`. -/
def scoreOf (validCount totalCount : ℕ) : ℤ :=
  if totalCount > 0 then mathRound (((validCount : ℚ) / (totalCount : ℚ)) * 100) else 0

/-- The final block: `overall` from the lengths of `issues` and `warnings`. -/
def setOverall (results : Results) : Results :=
  if results.issues.length > 0 then { results with overall := "invalid" }
  else if results.warnings.length > 0 then { results with overall := "warning" }
  else results

/-- The block "Generate suggestions": the body-mass hint from height and weight. -/
def addSuggestions (measurementSet : MeasurementSet) (results : Results) : Results :=
  if (measurementSet "height").truthy && (measurementSet "weight").truthy then
    let bmi := ((measurementSet "weight").mul (num 703)).div
      ((measurementSet "height").mul (measurementSet "height"))
    if bmi.lt (num 18.5) || bmi.gt (num 30) then
      { results with suggestions := results.suggestions ++
          [⟨"health", "BMI of " ++ toFixed 1 bmi
            ++ " suggests consulting with a healthcare provider for optimal measurements"⟩] }
    else results
  else results

/-- The initial value of `results`. -/
def initialResults : Results :=
  { overall := "valid", issues := [], warnings := [], suggestions := [], score := 0, details := [] }

/-- Source function `validateAllMeasurements(measurementSet)` of the component;
`selectedUnit` is the display unit held in the component state. -/
def validateAllMeasurements (selectedUnit : String) (measurementSet : MeasurementSet) : Results :=
  let st := measurementRanges.foldl (fieldStep measurementSet selectedUnit)
    { results := initialResults, validCount := 0, totalCount := 0 }
  let r1 := (crossValidationChecks measurementSet).foldl crossStep st.results
  let r2 : Results := { r1 with score := scoreOf st.validCount st.totalCount }
  let r3 := setOverall r2
  addSuggestions measurementSet r3

/-- The measurement set `{ waist: 20, inseam: 34, outseam: 30 }`. -/
def exampleSet : MeasurementSet := fun field =>
  if field = "waist" then num 20
  else if field = "inseam" then num 34
  else if field = "outseam" then num 30
  else undefined

/-- The presence test of the first loop for one field:
`measurementSet[field] && !isNaN(measurementSet[field])`. -/
def fieldPresent (measurementSet : MeasurementSet) (field : String) : Bool :=
  (measurementSet field).truthy && !isNaN (measurementSet field)

/-- The verdict of `validateMeasurement` on one field as the first loop calls
it (parsed value, unit inches). -/
def fieldValid (measurementSet : MeasurementSet) (field : String) : Bool :=
  (validateMeasurement (parseFloat (measurementSet field)) field INCHES).isValid

/-- The first cross-check, `waist > hip`. -/
def waistOverHip (measurementSet : MeasurementSet) : Bool :=
  (measurementSet "waist").truthy && (measurementSet "hip").truthy
    && (measurementSet "waist").gt (measurementSet "hip")

/-- The second cross-check, `bust < waist`. -/
def bustUnderWaist (measurementSet : MeasurementSet) : Bool :=
  (measurementSet "bust").truthy && (measurementSet "waist").truthy
    && (measurementSet "bust").lt (measurementSet "waist")

/-- The third cross-check, `inseam > outseam`. -/
def inseamOverOutseam (measurementSet : MeasurementSet) : Bool :=
  (measurementSet "inseam").truthy && (measurementSet "outseam").truthy
    && (measurementSet "inseam").gt (measurementSet "outseam")

/-- The fourth cross-check, `thigh < calf`. -/
def thighUnderCalf (measurementSet : MeasurementSet) : Bool :=
  (measurementSet "thigh").truthy && (measurementSet "calf").truthy
    && (measurementSet "thigh").lt (measurementSet "calf")

/-- The measurement set `{ waist: 40, hip: 36 }`. -/
def waistHipSet : MeasurementSet := fun field =>
  if field = "waist" then num 40
  else if field = "hip" then num 36
  else undefined

end MeasurementValidator

/-!
Marketplace records and the delivery and payment routes

An embedding of `routes/delivery.js` and of the refund route of
`routes/payments.js` over the rows of `models/Delivery.js`, `models/Order.js`,
`models/Payment.js` and `models/Tailor.js`. The persistence layer is taken to
work: a lookup returns the stored row or nothing, a save stores the row; a
query that names an association or a column that the models do not declare
throws. A handler that throws answers 500 `Server Error` from its `catch`
block. Every request has passed the `auth` middleware, which supplies the
caller's id.
-/

namespace Marketplace

/-- Primary keys and user identifiers. -/
abbrev Key := ℕ

/-- Modelled from the spec: the `User` model (`models/User.js` is not among the
sources); the routes read only the `role` of a user. -/
structure User where
  role : String
deriving DecidableEq, Repr

/-- A row of `Tailor`: the fields the routes read. -/
structure Tailor where
  id : Key
  userId : Key
deriving DecidableEq, Repr

/-- A row of `Order`: the fields the delivery and payment routes read or write.
`status` is declared as an enumeration of seven names in the model; the routes
write it as a plain string. -/
structure Order where
  customerId : Option Key
  tailorId : Option Key
  status : String
  totalPrice : ℚ
deriving DecidableEq, Repr

/-- A stored location value, such as `{ type: 'Point', coordinates: [lng, lat] }`. -/
structure GeoPoint where
  type : String
  coordinates : List ℚ
deriving DecidableEq, Repr

/-- A row of `Delivery`. Dates are instants in milliseconds. -/
structure Delivery where
  id : Key
  orderId : Key
  riderId : Option Key
  status : String
  pickupAddress : String
  deliveryAddress : String
  pickupDate : Option ℕ
  deliveryDate : Option ℕ
  trackingCode : String
  currentLocation : Option GeoPoint
  notes : Option String
  deliveryFee : ℚ
deriving DecidableEq, Repr

/-- A row of `Payment`. -/
structure Payment where
  id : Key
  orderId : Key
  amount : ℚ
  currency : String
  paymentMethod : String
  paymentIntentId : Option String
  status : String
  escrowReleaseDate : Option ℕ
deriving DecidableEq, Repr

/-- The tables of the database. -/
structure Db where
  users : Key → Option User
  tailors : List Tailor
  orders : Key → Option Order
  deliveries : List Delivery
  payments : List Payment

/-- The object sent by the public tracking route. -/
structure TrackingView where
  trackingCode : String
  status : String
  pickupDate : Option ℕ
  deliveryDate : Option ℕ
  currentLocation : Option GeoPoint
  orderStatus : String
deriving DecidableEq, Repr

/-- The object returned by the payment gateway for a refund. -/
structure Refund where
  id : String
deriving DecidableEq, Repr

/-- The body of a response. -/
inductive Body where
  | msg (m : String)
  | text (t : String)
  | delivery (d : Delivery)
  | tracking (v : TrackingView)
  | refunded (p : Payment) (r : Refund)
  | payment (p : Payment)
deriving DecidableEq, Repr

/-- A response: HTTP status and body (`res.json` answers 200). -/
structure Response where
  status : ℕ
  body : Body
deriving DecidableEq, Repr

/-- The answer of a `catch` block. -/
def serverError : Response := ⟨500, Body.text "Server Error"⟩

namespace Db

/-- Lookup `Delivery.findByPk(id)`. -/
def findDelivery (db : Db) (id : Key) : Option Delivery :=
  db.deliveries.find? (fun d => decide (d.id = id))

/-- Call `delivery.save()`: the row with the key of `d` is replaced by `d`. -/
def saveDelivery (db : Db) (d : Delivery) : Db :=
  { db with deliveries := db.deliveries.map (fun x => if x.id = d.id then d else x) }

/-- Call `order.update(...)` or `order.save()` for the order stored under `id`. -/
def saveOrder (db : Db) (id : Key) (o : Order) : Db :=
  { db with orders := fun k => if k = id then some o else db.orders k }

/-- Lookup `Payment.findByPk(id)`. -/
def findPayment (db : Db) (id : Key) : Option Payment :=
  db.payments.find? (fun p => decide (p.id = id))

/-- Call `payment.save()`. -/
def savePayment (db : Db) (p : Payment) : Db :=
  { db with payments := db.payments.map (fun x => if x.id = p.id then p else x) }

end Db

end Marketplace

namespace DeliveryRoutes
open Marketplace

/-- Method `s.substring(a, b)` for `a ≤ b`, on a string of ASCII characters
(one code unit per character). -/
def substring (s : String) (a b : ℕ) : String :=
  String.mk ((s.toList.drop a).take (b - a))

/-- Method `s.toUpperCase()` on a string of ASCII characters. -/
def toUpperCase (s : String) : String :=
  String.mk (s.toList.map Char.toUpper)

/-- The tracking code derived from the random identifier `uuidv4()`:
`uuid.substring(0, 8).toUpperCase()`. -/
def trackingCodeOf (uuid : String) : String :=
  toUpperCase (substring uuid 0 8)

/-- The lower-case hexadecimal digits. -/
def hexDigits : List Char := "0123456789abcdef".toList

/-- Canonical text form of a version 4 UUID: 36 characters, hyphens at
positions 8, 13, 18 and 23, the digit `4` at position 14, one of `8 9 a b` at
position 19, lower-case hexadecimal digits elsewhere. -/
def isUuidV4 (s : String) : Bool :=
  s.toList.length == 36 &&
  s.toList.enum.all (fun ic =>
    if ic.1 = 8 ∨ ic.1 = 13 ∨ ic.1 = 18 ∨ ic.1 = 23 then ic.2 == '-'
    else if ic.1 = 14 then ic.2 == '4'
    else if ic.1 = 19 then "89ab".toList.contains ic.2
    else hexDigits.contains ic.2)

/-- The table `validStatusTransitions` of the status route: the successors of
a status, `none` for a status that is not a key. The stored status is one of
the seven names of the enumeration of the model. -/
def validStatusTransitions (status : String) : Option (List String) :=
  if status = "assigned" then some ["pickup_in_progress"]
  else if status = "pickup_in_progress" then some ["picked_up", "failed"]
  else if status = "picked_up" then some ["in_transit", "failed"]
  else if status = "in_transit" then some ["delivered", "failed"]
  else none

/-- The body of `POST api/delivery`. -/
structure CreateBody where
  orderId : Option Key
  pickupAddress : Option String
  deliveryAddress : Option String
  notes : Option String
  deliveryFee : Option ℚ
deriving DecidableEq, Repr

/-- The key given to a new row of `Delivery`. -/
def nextDeliveryId (db : Db) : Key :=
  (db.deliveries.map (fun d => d.id)).foldl max 0 + 1

/-- Route `POST api/delivery` (create). `uuid` is the value of `uuidv4()`.
`Delivery.create` throws when an address is missing (`allowNull: false`) or
when the tracking code is taken (`unique: true`). The status written to the
order is the string of the source. -/
def create (db : Db) (userId : Key) (uuid : String) (body : CreateBody) : Response × Db :=
  match body.orderId.bind db.orders, body.orderId with
  | some order, some orderId =>
    let denied : Option Bool :=
      if order.tailorId ≠ some userId then (db.users userId).map (fun u => decide (u.role ≠ "admin"))
      else some false
    match denied with
    | none => (serverError, db)
    | some true => (⟨401, Body.msg "Not authorized"⟩, db)
    | some false =>
      let trackingCode := trackingCodeOf uuid
      match body.pickupAddress, body.deliveryAddress with
      | some pickupAddress, some deliveryAddress =>
        if db.deliveries.any (fun d => d.trackingCode = trackingCode) then (serverError, db)
        else
          let delivery : Delivery :=
            { id := nextDeliveryId db
              orderId := orderId
              riderId := none
              status := "pending"
              pickupAddress := pickupAddress
              deliveryAddress := deliveryAddress
              pickupDate := none
              deliveryDate := none
              trackingCode := trackingCode
              currentLocation := none
              notes := body.notes
              deliveryFee := body.deliveryFee.getD 0 }
          let db1 : Db := { db with deliveries := db.deliveries ++ [delivery] }
          let db2 := db1.saveOrder orderId { order with status := "pending_delivery" }
          (⟨200, Body.delivery delivery⟩, db2)
      | _, _ => (serverError, db)
  | _, _ => (⟨404, Body.msg "Order not found"⟩, db)

/-- Route `PUT api/delivery/:id/assign` (assignRider). -/
def assignRider (db : Db) (userId : Key) (id : Key) (riderId : Option Key) : Response × Db :=
  match db.users userId with
  | none => (serverError, db)
  | some user =>
    if user.role ≠ "admin" then (⟨401, Body.msg "Not authorized"⟩, db)
    else
      match riderId.bind db.users, riderId with
      | some rider, some riderKey =>
        if rider.role ≠ "rider" then (⟨400, Body.msg "Invalid rider"⟩, db)
        else
          match db.findDelivery id with
          | none => (⟨404, Body.msg "Delivery not found"⟩, db)
          | some delivery =>
            let d1 : Delivery := { delivery with riderId := some riderKey, status := "assigned" }
            (⟨200, Body.delivery d1⟩, db.saveDelivery d1)
      | _, _ => (⟨400, Body.msg "Invalid rider"⟩, db)

/-- Route `PUT api/delivery/:id/status` (advanceStatus). `now` is the value of
`new Date()`; `status` is the requested status (a value that is not a string is
refused like a string outside the table); `currentLocation` is `none` when the
body has no truthy `currentLocation`. -/
def advanceStatus (db : Db) (now : ℕ) (userId : Key) (id : Key) (status : String)
    (currentLocation : Option GeoPoint) : Response × Db :=
  match db.findDelivery id with
  | none => (⟨404, Body.msg "Delivery not found"⟩, db)
  | some delivery =>
    if delivery.riderId ≠ some userId then (⟨401, Body.msg "Not authorized"⟩, db)
    else
      match validStatusTransitions delivery.status with
      | none => (⟨400, Body.msg "Invalid status transition"⟩, db)
      | some successors =>
        if !successors.contains status then (⟨400, Body.msg "Invalid status transition"⟩, db)
        else
          let d1 : Delivery := { delivery with status := status }
          let d2 : Delivery :=
            if status = "picked_up" then { d1 with pickupDate := some now }
            else if status = "delivered" then { d1 with deliveryDate := some now }
            else d1
          let d3 : Delivery :=
            match currentLocation with
            | some location => { d2 with currentLocation := some location }
            | none => d2
          let db1 := db.saveDelivery d3
          if status = "delivered" then
            match db1.orders delivery.orderId with
            | none => (serverError, db1)
            | some order =>
              (⟨200, Body.delivery d3⟩, db1.saveOrder delivery.orderId { order with status := "delivered" })
          else (⟨200, Body.delivery d3⟩, db1)

/-- Route `PUT api/delivery/:id/location` (updateLocation). -/
def updateLocation (db : Db) (userId : Key) (id : Key) (latitude longitude : ℚ) :
    Response × Db :=
  match db.findDelivery id with
  | none => (⟨404, Body.msg "Delivery not found"⟩, db)
  | some delivery =>
    if delivery.riderId ≠ some userId then (⟨401, Body.msg "Not authorized"⟩, db)
    else
      let d1 : Delivery :=
        { delivery with currentLocation := some ⟨"Point", [longitude, latitude]⟩ }
      (⟨200, Body.delivery d1⟩, db.saveDelivery d1)

/-- The associations that the models declare, each as the model that declares
it and its target: `Tailor.belongsTo(User)`, the three `Order.belongsTo` of
`models/Order.js` and `Measurement.belongsTo(User)`. `models/Delivery.js`
declares none, and no model declares one with `Delivery`. -/
def associations : List (String × String) :=
  [ ("Tailor", "User"),
    ("Order", "User"),
    ("Order", "Tailor"),
    ("Order", "Measurement"),
    ("Measurement", "User") ]

/-- The attributes of `Order`: the columns that `models/Order.js` defines and
the two timestamps that Sequelize adds. -/
def orderAttributes : List String :=
  [ "id", "customerId", "tailorId", "measurementId", "orderType", "description",
    "instructions", "status", "materialSource", "materialDetails", "tailoringPrice",
    "materialPrice", "deliveryPrice", "totalPrice", "isPaid", "paymentId",
    "estimatedCompletionDate", "actualCompletionDate", "createdAt", "updatedAt" ]

/-- Whether a query on `model` can load `target` through `include` with the
selected attributes. Sequelize throws when `target` is not associated to
`model`, and the database refuses a column that the table of `target` does not
have. -/
def includeLoads (model target : String) (attributes targetAttributes : List String) : Bool :=
  associations.contains (model, target) && attributes.all (fun a => targetAttributes.contains a)

/-- Route `GET api/delivery/tracking/:code` (public lookup). The query is
`Delivery.findOne` with `include: [{ model: Order, attributes: ['id',
'orderNumber', 'status'] }]`; when the include cannot be loaded the query throws
and the `catch` block answers. Past the query, the answer is 404 for no
delivery and the object of six values otherwise; reading the status of a
missing order throws. -/
def trackByCode (db : Db) (code : String) : Response :=
  if !includeLoads "Delivery" "Order" ["id", "orderNumber", "status"] orderAttributes then
    serverError
  else
    match db.deliveries.find? (fun d => decide (d.trackingCode = code)) with
    | none => ⟨404, Body.msg "Delivery not found"⟩
    | some delivery =>
      match db.orders delivery.orderId with
      | none => serverError
      | some order =>
        ⟨200, Body.tracking
          { trackingCode := delivery.trackingCode
            status := delivery.status
            pickupDate := delivery.pickupDate
            deliveryDate := delivery.deliveryDate
            currentLocation := delivery.currentLocation
            orderStatus := order.status }⟩

/-- A request to one of the four delivery operations that write. -/
inductive Request where
  | create (userId : Key) (uuid : String) (body : CreateBody)
  | assignRider (userId : Key) (id : Key) (riderId : Option Key)
  | advanceStatus (now : ℕ) (userId : Key) (id : Key) (status : String)
      (currentLocation : Option GeoPoint)
  | updateLocation (userId : Key) (id : Key) (latitude longitude : ℚ)

/-- The handler of a request. -/
def handle (db : Db) : Request → Response × Db
  | Request.create userId uuid body => create db userId uuid body
  | Request.assignRider userId id riderId => assignRider db userId id riderId
  | Request.advanceStatus now userId id status loc => advanceStatus db now userId id status loc
  | Request.updateLocation userId id lat lng => updateLocation db userId id lat lng

/-- The edges of the transition table as the specification lists them. -/
def transitionEdges : List (String × String) :=
  [ ("pending", "assigned"),
    ("assigned", "pickup_in_progress"),
    ("pickup_in_progress", "picked_up"),
    ("pickup_in_progress", "failed"),
    ("picked_up", "in_transit"),
    ("picked_up", "failed"),
    ("in_transit", "delivered"),
    ("in_transit", "failed") ]

/-- The legal successors that the specification lists for the status route. -/
def advanceEdges : List (String × String) :=
  [ ("assigned", "pickup_in_progress"),
    ("pickup_in_progress", "picked_up"),
    ("pickup_in_progress", "failed"),
    ("picked_up", "in_transit"),
    ("picked_up", "failed"),
    ("in_transit", "delivered"),
    ("in_transit", "failed") ]

/-- The row that a successful status request saves: new status, the date of
the status reached, and the location when one is supplied. -/
def advancedRow (delivery : Delivery) (now : ℕ) (status : String)
    (currentLocation : Option GeoPoint) : Delivery :=
  let d1 : Delivery := { delivery with status := status }
  let d2 : Delivery :=
    if status = "picked_up" then { d1 with pickupDate := some now }
    else if status = "delivered" then { d1 with deliveryDate := some now }
    else d1
  match currentLocation with
  | some location => { d2 with currentLocation := some location }
  | none => d2

/-- Whether a request is an assignment of a rider. -/
def isAssign : Request → Bool
  | Request.assignRider _ _ _ => true
  | _ => false

/-- Delivery 1 of order 7, carried by rider 2, in the given status. -/
def sampleDelivery (status : String) : Delivery :=
  { id := 1, orderId := 7, riderId := some 2, status := status,
    pickupAddress := "12 Mill Lane", deliveryAddress := "3 Dock Road",
    pickupDate := none, deliveryDate := none, trackingCode := "3F2A9C1E",
    currentLocation := none, notes := none, deliveryFee := 5 }

/-- A database with an administrator (user 1), a rider (user 2), order 7 and
the delivery `sampleDelivery status` of that order. -/
def sampleDb (status : String) : Db :=
  { users := fun k =>
      if k = 1 then some ⟨"admin"⟩ else if k = 2 then some ⟨"rider"⟩ else none
    tailors := []
    orders := fun k => if k = 7 then some ⟨some 3, some 4, "in_progress", 100⟩ else none
    deliveries := [sampleDelivery status]
    payments := [] }

end DeliveryRoutes

namespace PaymentRoutes
open Marketplace

/-- Route `PUT api/payments/:id/refund`. `stripeRefund` stands for
`stripe.refunds.create({ payment_intent })`: `none` when the call throws (also
when the gateway is not configured). `order.paymentStatus` is not a column of
`Order` and is not stored. -/
def refund (stripeRefund : Option String → Option Refund) (db : Db) (userId : Key) (id : Key) :
    Response × Db :=
  match db.findPayment id with
  | none => (⟨404, Body.msg "Payment not found"⟩, db)
  | some payment =>
    match db.orders payment.orderId with
    | none => (⟨404, Body.msg "Order not found"⟩, db)
    | some order =>
      let user := db.users userId
      let tailor := db.tailors.find? (fun t => decide (t.userId = userId))
      let denied : Option Bool :=
        match tailor with
        | some t =>
          if some t.id ≠ order.tailorId then user.map (fun u => decide (u.role ≠ "admin"))
          else some false
        | none => some false
      match denied with
      | none => (serverError, db)
      | some true => (⟨401, Body.msg "Not authorized"⟩, db)
      | some false =>
        if payment.status ≠ "held_in_escrow" ∧ payment.status ≠ "processing" then
          (⟨400, Body.msg "Payment cannot be refunded"⟩, db)
        else
          match stripeRefund payment.paymentIntentId with
          | none => (serverError, db)
          | some r =>
            let p1 : Payment := { payment with status := "refunded" }
            let db1 := db.savePayment p1
            let db2 := db1.saveOrder payment.orderId { order with status := "cancelled" }
            (⟨200, Body.refunded p1 r⟩, db2)

/-- A database with a customer (user 3), a tailor profile 4 owned by user 5,
order 7 made by customer 3 with tailor 4, and its payment 1 held in escrow. -/
def escrowDb : Db :=
  { users := fun k =>
      if k = 3 then some ⟨"customer"⟩ else if k = 5 then some ⟨"tailor"⟩ else none
    tailors := [⟨4, 5⟩]
    orders := fun k => if k = 7 then some ⟨some 3, some 4, "in_progress", 100⟩ else none
    deliveries := []
    payments :=
      [ { id := 1, orderId := 7, amount := 100, currency := "USD", paymentMethod := "card",
          paymentIntentId := some "pi_1", status := "held_in_escrow",
          escrowReleaseDate := none } ] }

/-- A gateway whose refund call succeeds. -/
def gatewayOk : Option String → Option Refund := fun _ => some ⟨"re_1"⟩

end PaymentRoutes

namespace UnitConversion
open JsValue

/-- A row `{ bust, waist, hip }` of the size chart (inches). -/
structure SizeData where
  bust : ℕ
  waist : ℕ
  hip : ℕ
deriving DecidableEq, Repr

/-- Lookup `suggestions[size]` inside `getMeasurementSuggestion`; `none` for a
size without row. (Names inherited from `Object.prototype` are outside the
model.) -/
def suggestions (size : String) : Option SizeData :=
  if size = "XS" then some ⟨32, 24, 34⟩
  else if size = "S" then some ⟨34, 26, 36⟩
  else if size = "M" then some ⟨36, 28, 38⟩
  else if size = "L" then some ⟨38, 30, 40⟩
  else if size = "XL" then some ⟨40, 32, 42⟩
  else if size = "XXL" then some ⟨42, 34, 44⟩
  else none

/-- Lookup `sizeData[measurementType]`; `none` for a name that is not a key of
the row. -/
def sizeEntry (sizeData : SizeData) (measurementType : String) : Option ℕ :=
  if measurementType = "bust" then some sizeData.bust
  else if measurementType = "waist" then some sizeData.waist
  else if measurementType = "hip" then some sizeData.hip
  else none

/-- Source function `getMeasurementSuggestion(measurementType, size, unit)`;
`none` is `null`. -/
def getMeasurementSuggestion (measurementType size unit : String) : Option JsValue :=
  match suggestions size with
  | none => none
  | some sizeData =>
    match sizeEntry sizeData measurementType with
    | none => none
    | some v => if v = 0 then none else some (convertUnit (num v) INCHES unit)

end UnitConversion

namespace Marketplace

/-- The names of the enumeration declared for `status` in `models/Order.js`. -/
def orderStatuses : List String :=
  ["pending", "confirmed", "in_progress", "ready_for_delivery", "delivered", "completed",
    "cancelled"]

end Marketplace

namespace PaymentRoutes
open Marketplace UnitConversion UnitConversion.JsValue

/-- Route `PUT api/payments/:id/release-escrow`. `now` is the value of
`new Date()`. `order.paymentStatus` is not a column of `Order`, so
`order.save()` stores nothing. -/
def releaseEscrow (db : Db) (now : ℕ) (userId : Key) (id : Key) : Response × Db :=
  match db.findPayment id with
  | none => (⟨404, Body.msg "Payment not found"⟩, db)
  | some payment =>
    match db.orders payment.orderId with
    | none => (⟨404, Body.msg "Order not found"⟩, db)
    | some order =>
      let denied : Option Bool :=
        if order.customerId ≠ some userId then
          (db.users userId).map (fun u => decide (u.role ≠ "admin"))
        else some false
      match denied with
      | none => (serverError, db)
      | some true => (⟨401, Body.msg "Not authorized"⟩, db)
      | some false =>
        if payment.status ≠ "held_in_escrow" then
          (⟨400, Body.msg "Payment is not in escrow"⟩, db)
        else
          let p1 : Payment :=
            { payment with status := "released", escrowReleaseDate := some now }
          (⟨200, Body.payment p1⟩, db.savePayment p1)

/-- The fields of the body of `POST api/payments/create-payment-intent` that
decide the amount. -/
structure IntentBody where
  orderId : Option Key
  amount : JsValue
deriving DecidableEq

/-- The second block of the route (`if (!amountToCharge) { ... }`): the amount
of the order when it is truthy, otherwise the amount of the body, checked to be
a positive finite number. -/
def fallbackAmount (amountToCharge amountFromBody : JsValue) : Except Response JsValue :=
  if !amountToCharge.truthy then
    if amountFromBody = JsValue.null ∨ amountFromBody = JsValue.undefined then
      Except.error ⟨400, Body.msg "Amount is required when order is unavailable"⟩
    else
      match amountFromBody.toNumber with
      | some x =>
        if x ≤ 0 then Except.error ⟨400, Body.msg "Invalid amount provided"⟩
        else Except.ok (num x)
      | none => Except.error ⟨400, Body.msg "Invalid amount provided"⟩
  else Except.ok amountToCharge

/-- Lines 15-47 of `POST api/payments/create-payment-intent`: the value of
`amountToCharge` when the route goes on, or the response it returns early. An
order lookup that throws is caught by the route and counts as no order. The
rest of the route passes `Math.round(amountToCharge * 100)` to the gateway and
stores `amountToCharge` in the payment row. -/
def resolveAmount (db : Db) (userId : Key) (body : IntentBody) : Except Response JsValue :=
  match body.orderId.bind db.orders with
  | some order =>
    if (match order.customerId with
        | some c => decide (c ≠ userId)
        | none => false) = true then
      Except.error ⟨401, Body.msg "Not authorized"⟩
    else fallbackAmount (num order.totalPrice) body.amount
  | none => fallbackAmount JsValue.null body.amount

/-- The amount sent to the gateway, `Math.round(amountToCharge * 100)`. -/
def amountInCents (amountToCharge : JsValue) : Option ℤ :=
  (amountToCharge.mul (num 100)).toNumber.map MeasurementValidator.mathRound

end PaymentRoutes

namespace DeliveryRoutes
open Marketplace

/-- The position of a status along the table of the status route. -/
def statusRank (status : String) : ℕ :=
  if status = "assigned" then 0
  else if status = "pickup_in_progress" then 1
  else if status = "picked_up" then 2
  else if status = "in_transit" then 3
  else 4

/-- One request to the status route for a given delivery. -/
structure AdvanceCall where
  now : ℕ
  userId : Key
  status : String
  currentLocation : Option GeoPoint
deriving DecidableEq, Repr

/-- Consecutive requests to the status route for the delivery `id`: the
responses in order and the final database. -/
def runAdvances (db : Db) (id : Key) : List AdvanceCall → List Response × Db
  | [] => ([], db)
  | c :: cs =>
    let r := advanceStatus db c.now c.userId id c.status c.currentLocation
    let rest := runAdvances r.2 id cs
    (r.1 :: rest.1, rest.2)

/-- The body of a create request for order 7. -/
def sampleCreateBody : CreateBody :=
  { orderId := some 7, pickupAddress := some "12 Mill Lane",
    deliveryAddress := some "3 Dock Road", notes := none, deliveryFee := some 5 }

/-- The four requests of rider 2 along the longest path of the table. -/
def fullRun : List AdvanceCall :=
  [ ⟨1000, 2, "pickup_in_progress", none⟩, ⟨2000, 2, "picked_up", none⟩,
    ⟨3000, 2, "in_transit", none⟩, ⟨4000, 2, "delivered", none⟩ ]

end DeliveryRoutes

/-!
Tailor search

An embedding of the search route of `routes/tailors.js` and of
`calculateDistance`. Numbers are taken in an ordered field `α`, and the members
of `Math` that the distance uses are a parameter, so that the same definitions
read over the real numbers with the real trigonometric functions. Query values
are taken to be numerals (`parseFloat` of another string is `NaN`, which is
outside the model).
-/

namespace TailorRoutes
open Marketplace

/-- The members of `Math` used by `calculateDistance`, over a number type. -/
structure MathFns (α : Type) where
  sin : α → α
  cos : α → α
  sqrt : α → α
  atan2 : α → α → α
  PI : α

/-- Source function `toRadians(degrees)`. -/
def toRadians {α : Type} [Field α] (M : MathFns α) (degrees : α) : α :=
  degrees * (M.PI / 180)

/-- Source function `calculateDistance(lat1, lon1, lat2, lon2)` (Haversine,
miles). -/
def calculateDistance {α : Type} [Field α] (M : MathFns α) (lat1 lon1 lat2 lon2 : α) : α :=
  let R : α := 3958.8
  let dLat := toRadians M (lat2 - lat1)
  let dLon := toRadians M (lon2 - lon1)
  let a :=
    M.sin (dLat / 2) * M.sin (dLat / 2) +
    M.cos (toRadians M lat1) * M.cos (toRadians M lat2) *
    M.sin (dLon / 2) * M.sin (dLon / 2)
  let c := 2 * M.atan2 (M.sqrt a) (M.sqrt (1 - a))
  let distance := R * c
  distance

/-- Modelled from the spec: the `User` model (`models/User.js` is not among the
sources); the search reads the numeric `latitude` and `longitude` of the user
of a tailor, `none` when the value is `null`. -/
structure UserInfo (α : Type) where
  id : Key
  latitude : Option α
  longitude : Option α

/-- A row of `Tailor` with its included user, as the search reads it. -/
structure TailorRow (α : Type) where
  id : Key
  shopName : String
  rating : α
  user : Option (UserInfo α)

/-- A tailor of the radius search with the distance stored in
`dataValues.distance`. -/
structure Located (α : Type) where
  tailor : TailorRow α
  distance : α

/-- The query of `GET api/tailors`: `none` for a parameter that is absent or
empty. The filters `specialties` and `minRating` act in the database query and
are part of the candidate list. -/
structure SearchQuery (α : Type) where
  lat : Option α
  lng : Option α
  radius : Option α
  sortBy : Option String

/-- ToBoolean of a coordinate: `null` and `0` are falsy. -/
def coordTruthy {α : Type} [LinearOrderedField α] : Option α → Bool
  | some v => decide (v ≠ 0)
  | none => false

/-- The callback of `tailors.filter(...)` for a tailor with its user: the
tailor with its distance when it is kept, `none` when it is dropped. -/
def filterStep {α : Type} [LinearOrderedField α] (M : MathFns α) (lat lng radius : α)
    (tailor : TailorRow α) : Option (Located α) :=
  match tailor.user with
  | none => none
  | some user =>
    if !coordTruthy user.latitude || !coordTruthy user.longitude then none
    else
      match user.latitude, user.longitude with
      | some latitude, some longitude =>
        let distance := calculateDistance M lat lng latitude longitude
        if distance ≤ radius then some ⟨tailor, distance⟩ else none
      | _, _ => none

/-- The two calls of `filteredTailors.sort(...)`: a stable sort by ascending
distance or by descending rating; any other `sortBy` leaves the order. -/
def sortLocated {α : Type} [LinearOrderedField α] (sortBy : String) (l : List (Located α)) :
    List (Located α) :=
  if sortBy = "distance" then l.mergeSort (fun a b => decide (a.distance ≤ b.distance))
  else if sortBy = "rating" then
    l.mergeSort (fun a b => decide (b.tailor.rating ≤ a.tailor.rating))
  else l

/-- The answer of the search route. -/
inductive SearchResponse (α : Type) where
  | located (l : List (Located α))
  | plain (l : List (TailorRow α))
  | serverError

/-- Route `GET api/tailors` after `Tailor.findAll`: `tailors` is the candidate
list. With coordinates in the query the candidates are filtered by radius
(default 10) and sorted (default `distance`); a tailor without user makes the
filter throw. Without coordinates the list is sorted by rating on request. -/
def searchTailors {α : Type} [LinearOrderedField α] (M : MathFns α) (query : SearchQuery α)
    (tailors : List (TailorRow α)) : SearchResponse α :=
  let radius := query.radius.getD 10
  let sortBy := query.sortBy.getD "distance"
  match query.lat, query.lng with
  | some lat, some lng =>
    if tailors.any (fun t => t.user.isNone) then SearchResponse.serverError
    else SearchResponse.located (sortLocated sortBy (tailors.filterMap (filterStep M lat lng radius)))
  | _, _ =>
    SearchResponse.plain
      (if sortBy = "rating" then tailors.mergeSort (fun a b => decide (b.rating ≤ a.rating))
       else tailors)

/-- A tailor whose user lives on the equator, at latitude 0 and longitude 1. -/
def equatorTailor (α : Type) [LinearOrderedField α] : TailorRow α :=
  { id := 1, shopName := "Equator Stitches", rating := 4,
    user := some { id := 5, latitude := some 0, longitude := some 1 } }

/-- A tailor whose user lives at latitude 6 and longitude 3. -/
def cityTailor (α : Type) [LinearOrderedField α] : TailorRow α :=
  { id := 2, shopName := "City Tailors", rating := 5,
    user := some { id := 6, latitude := some 6, longitude := some 3 } }

end TailorRoutes

/-!
Measurement routes

An embedding of the create, update and delete routes of
`routes/measurements.js` over the rows of `models/Measurement.js`. The
operators of a `where` clause are the symbols of `Op`, as `routes/tailors.js`
writes them (`[Op.gte]`, `[Op.overlap]`); an object with a string key such as
`$ne` is no operator. A field that is `undefined` in the body of an update
leaves the stored value.
-/

namespace MeasurementRoutes
open Marketplace UnitConversion

/-- A row of `Measurement`: `measures` holds the ten numeric columns and
`additionalMeasurements` by name. -/
structure MeasurementRow where
  id : Key
  userId : Key
  name : String
  measures : String → JsValue
  notes : Option String
  isDefault : Bool
  measurementType : String

/-- The body of a create or update request. -/
structure MeasurementBody where
  name : Option String
  measures : String → JsValue
  notes : Option String
  isDefault : Option Bool
  measurementType : Option String

/-- The answer of a measurement route. -/
inductive Reply where
  | measurement (r : MeasurementRow)
  | msg (status : ℕ) (m : String)
  | serverError

/-- What a `where` clause compares a column with: a plain value, as in
`userId: req.user.id`, or a plain object with one string key, as in
`id: { $ne: measurement.id }`. -/
inductive Condition where
  | value (k : Key)
  | object (name : String) (k : Key)

/-- The rows that a condition selects, by the value of the column. A plain
value selects the rows whose column equals it. An object with a string key
holds no operator: Sequelize takes the object itself as the value to compare
the column with and throws on it (`Invalid value`), before any row is read:
`none`. -/
def Condition.select : Condition → Option (Key → Bool)
  | Condition.value k => some (fun x => decide (x = k))
  | Condition.object _ _ => none

/-- Call `Measurement.update({ isDefault: false }, { where: { userId, id: { $ne: id } } })`:
the flag is cleared on the rows that both conditions select; `none` when the
call throws, and then no row is written. -/
def clearOthers (rows : List MeasurementRow) (userId id : Key) : Option (List MeasurementRow) :=
  match (Condition.value userId).select, (Condition.object "$ne" id).select with
  | some byUser, some byId =>
    some (rows.map (fun r => if byUser r.userId && byId r.id then { r with isDefault := false } else r))
  | _, _ => none

/-- Route `POST api/measurements`. `newId` is the key drawn for the new row;
`Measurement.create` throws when `name` is missing (`allowNull: false`) or the
key is taken (primary key). The row is stored before the flag is cleared on the
others; when that second call throws, the `catch` block answers and the stored
row stays. -/
def createMeasurement (rows : List MeasurementRow) (userId newId : Key) (body : MeasurementBody) :
    Reply × List MeasurementRow :=
  match body.name with
  | none => (Reply.serverError, rows)
  | some name =>
    if rows.any (fun r => decide (r.id = newId)) then (Reply.serverError, rows)
    else
      let measurement : MeasurementRow :=
        { id := newId
          userId := userId
          name := name
          measures := body.measures
          notes := body.notes
          isDefault := body.isDefault.getD false
          measurementType := body.measurementType.getD "self" }
      let rows1 := rows ++ [measurement]
      if body.isDefault = some true then
        match clearOthers rows1 userId measurement.id with
        | some rows2 => (Reply.measurement measurement, rows2)
        | none => (Reply.serverError, rows1)
      else (Reply.measurement measurement, rows1)

/-- Route `PUT api/measurements/:id`. `measurement.update` leaves the stored
value of every field that is `undefined` in the body (`none`, or the measure
`undefined`). The row is stored before the flag is cleared on the others; when
that second call throws, the `catch` block answers and the stored row stays. -/
def updateMeasurement (rows : List MeasurementRow) (userId id : Key) (body : MeasurementBody) :
    Reply × List MeasurementRow :=
  match rows.find? (fun r => decide (r.id = id)) with
  | none => (Reply.msg 404 "Measurement not found", rows)
  | some measurement =>
    if measurement.userId ≠ userId then (Reply.msg 401 "Not authorized", rows)
    else
      let updatedMeasurement : MeasurementRow :=
        { measurement with
          name := body.name.getD measurement.name
          measures := fun field =>
            if body.measures field = JsValue.undefined then measurement.measures field
            else body.measures field
          notes := match body.notes with
            | some notes => some notes
            | none => measurement.notes
          isDefault := body.isDefault.getD measurement.isDefault
          measurementType := body.measurementType.getD measurement.measurementType }
      let rows1 := rows.map (fun r => if r.id = measurement.id then updatedMeasurement else r)
      if body.isDefault = some true then
        match clearOthers rows1 userId measurement.id with
        | some rows2 => (Reply.measurement updatedMeasurement, rows2)
        | none => (Reply.serverError, rows1)
      else (Reply.measurement updatedMeasurement, rows1)

/-- Route `DELETE api/measurements/:id`. -/
def deleteMeasurement (rows : List MeasurementRow) (userId id : Key) :
    Reply × List MeasurementRow :=
  match rows.find? (fun r => decide (r.id = id)) with
  | none => (Reply.msg 404 "Measurement not found", rows)
  | some measurement =>
    if measurement.userId ≠ userId then (Reply.msg 401 "Not authorized", rows)
    else (Reply.msg 200 "Measurement removed", rows.filter (fun r => decide (r.id ≠ measurement.id)))

/-- A request to one of the measurement routes that write. -/
inductive Request where
  | create (userId newId : Key) (body : MeasurementBody)
  | update (userId id : Key) (body : MeasurementBody)
  | delete (userId id : Key)

/-- The handler of a request. -/
def handle (rows : List MeasurementRow) : Request → Reply × List MeasurementRow
  | Request.create userId newId body => createMeasurement rows userId newId body
  | Request.update userId id body => updateMeasurement rows userId id body
  | Request.delete userId id => deleteMeasurement rows userId id

/-- At most one default measurement set per owner: two default rows of one
user are the same record. -/
def AtMostOneDefault (rows : List MeasurementRow) : Prop :=
  ∀ r1 ∈ rows, ∀ r2 ∈ rows, r1.userId = r2.userId → r1.isDefault = true →
    r2.isDefault = true → r1.id = r2.id

/-- The keys of the rows of a user that carry the default flag. -/
def defaultIds (rows : List MeasurementRow) (userId : Key) : List Key :=
  (rows.filter (fun r => decide (r.userId = userId) && r.isDefault)).map (fun r => r.id)

/-- The measures of an empty form. -/
def noMeasures : String → JsValue := fun _ => JsValue.undefined

/-- Two users: user 3 has the default set 1 and the set 2, user 4 has the
default set 3. -/
def sampleRows : List MeasurementRow :=
  [ { id := 1, userId := 3, name := "Everyday", measures := noMeasures, notes := none,
      isDefault := true, measurementType := "self" },
    { id := 2, userId := 3, name := "Formal", measures := noMeasures, notes := none,
      isDefault := false, measurementType := "self" },
    { id := 3, userId := 4, name := "Mine", measures := noMeasures, notes := none,
      isDefault := true, measurementType := "professional" } ]

/-- A body that names the set and asks for the default flag. -/
def defaultBody : MeasurementBody :=
  { name := some "Wedding", measures := noMeasures, notes := none, isDefault := some true,
    measurementType := none }

end MeasurementRoutes

namespace UnitConversion
open JsValue

/-! ## Unit conversion -/

/-- The rounding of `toFixed`, from the two inequalities that pin the nearest
integer. -/
theorem fixedScaled_eq (f n : ℕ) (q : ℚ) (h1 : (n : ℚ) ≤ |q| * 10 ^ f + 1 / 2)
    (h2 : |q| * 10 ^ f + 1 / 2 < (n : ℚ) + 1) : fixedScaled f q = n := by
  unfold fixedScaled
  have h : ⌊|q| * 10 ^ f + 1 / 2⌋ = (n : ℤ) := by
    rw [Int.floor_eq_iff]
    exact ⟨by exact_mod_cast h1, by exact_mod_cast h2⟩
  rw [h]
  simp

/-- Conversion towards inches divides by the factor of the source unit. -/
theorem convertUnit_to_inches (v : ℚ) (u : String) (hv : v ≠ 0) (hu : u ∈ UNITS) :
    convertUnit (num v) u INCHES =
      num (v / (if u = INCHES then 1 else if u = CENTIMETERS then 0.393701
        else if u = FEET then 12 else 39.3701)) := by
  simp only [UNITS, List.mem_cons, List.mem_singleton, List.not_mem_nil, or_false] at hu
  rcases hu with rfl | rfl | rfl | rfl <;>
    simp [convertUnit, isNaN, truthy, toNumber, JsValue.div, JsValue.mul, CONVERSION_FACTORS,
      FEET, INCHES, CENTIMETERS, METERS, hv] <;> norm_num

/-- C1 (evaluation at the failing input): `convertUnit(1, feet, inches)` is
`1 / 12`, the value divided by the factor 12 of feet, and not `1 * 12 = 12`. -/
theorem convertUnit_one_foot_in_inches :
    convertUnit (num 1) FEET INCHES = num (1 / 12) ∧
      convertUnit (num 1) FEET INCHES ≠ num (1 * 12) := by
  have h : convertUnit (num 1) FEET INCHES = num (1 / 12) := by
    simp [convertUnit, isNaN, truthy, toNumber, JsValue.div, JsValue.mul, CONVERSION_FACTORS,
      FEET, INCHES, CENTIMETERS, METERS]
  refine ⟨h, ?_⟩
  rw [h]
  intro hc
  injection hc with hq
  norm_num at hq

/-- Each of the four units has a non-zero numeric conversion factor. -/
theorem factor_of_unit (u : String) (hu : u ∈ UNITS) :
    ∃ f : ℚ, f ≠ 0 ∧ CONVERSION_FACTORS u = num f := by
  simp only [UNITS, List.mem_cons, List.mem_singleton, List.not_mem_nil, or_false] at hu
  rcases hu with rfl | rfl | rfl | rfl
  · exact ⟨1, by norm_num, by simp [CONVERSION_FACTORS]⟩
  · exact ⟨0.393701, by norm_num, by simp [CONVERSION_FACTORS, INCHES, CENTIMETERS]⟩
  · exact ⟨12, by norm_num, by simp [CONVERSION_FACTORS, INCHES, CENTIMETERS, FEET]⟩
  · exact ⟨39.3701, by norm_num,
      by simp [CONVERSION_FACTORS, INCHES, CENTIMETERS, FEET, METERS]⟩

/-- The arithmetic branch of `convertUnit` on a non-zero number, given the two
factors. -/
theorem convertUnit_of_factors (v f1 f2 : ℚ) (u1 u2 : String) (hv : v ≠ 0) (hne : u1 ≠ u2)
    (hf1 : f1 ≠ 0) (h1 : CONVERSION_FACTORS u1 = num f1) (h2 : CONVERSION_FACTORS u2 = num f2) :
    convertUnit (num v) u1 u2 = num (v / f1 * f2) := by
  simp [convertUnit, isNaN, truthy, toNumber, JsValue.div, JsValue.mul, h1, h2, hv, hne, hf1]

/-- C2: for units `u1`, `u2` among inches, cm, feet and meters and a positive
value `v`, converting `v` from `u1` to `u2` and back from `u2` to `u1` returns
`v` (exact rational arithmetic). -/
theorem convertUnit_round_trip (u1 u2 : String) (v : ℚ) (h1 : u1 ∈ UNITS) (h2 : u2 ∈ UNITS)
    (hv : 0 < v) : convertUnit (convertUnit (num v) u1 u2) u2 u1 = num v := by
  have hv0 : v ≠ 0 := ne_of_gt hv
  by_cases hne : u1 = u2
  · subst hne
    simp [convertUnit, isNaN, truthy, toNumber, hv0]
  · obtain ⟨f1, hf1, e1⟩ := factor_of_unit u1 h1
    obtain ⟨f2, hf2, e2⟩ := factor_of_unit u2 h2
    rw [convertUnit_of_factors v f1 f2 u1 u2 hv0 hne hf1 e1 e2]
    have hmid : v / f1 * f2 ≠ 0 := by positivity
    rw [convertUnit_of_factors (v / f1 * f2) f2 f1 u2 u1 hmid (Ne.symm hne) hf2 e2 e1]
    congr 1
    field_simp
    ring

/-- Witness for C2: 30 cm to feet and back. -/
theorem convertUnit_round_trip_witness :
    CENTIMETERS ∈ UNITS ∧ FEET ∈ UNITS ∧ (0 : ℚ) < 30 ∧
      convertUnit (convertUnit (num 30) CENTIMETERS FEET) FEET CENTIMETERS = num 30 :=
  ⟨by simp [UNITS], by simp [UNITS], by norm_num,
    convertUnit_round_trip CENTIMETERS FEET 30 (by simp [UNITS]) (by simp [UNITS]) (by norm_num)⟩

/-- C3: for every number `v` and every unit name `u` (one of the four units or
any other string), `convertUnit(v, u, u)` is `v` itself: no conversion factor
is looked up or applied. -/
theorem convertUnit_identity (v : ℚ) (u : String) : convertUnit (num v) u u = num v := by
  by_cases hv : v = 0
  · simp [convertUnit, isNaN, truthy, toNumber, hv]
  · simp [convertUnit, isNaN, truthy, toNumber, hv]

/-! ## Validation of one measurement -/

/-- A negative number is rejected with the fixed message, for every field type
and unit. -/
theorem validateMeasurement_negative (v : ℚ) (t u : String) (hv : v < 0) :
    validateMeasurement (num v) t u = ⟨false, "Measurement must be positive"⟩ := by
  have hv0 : v ≠ 0 := ne_of_lt hv
  simp [validateMeasurement, isNaN, truthy, toNumber, parseFloat, JsValue.le, hv0, le_of_lt hv]

/-- C4 (evaluation at the failing input): the number `0` is taken for an empty
value by the first test, so `validateMeasurement(0, type, unit)` is
`{ isValid: true, message: '' }` for every field type and unit. -/
theorem validateMeasurement_zero (t u : String) :
    validateMeasurement (num 0) t u = ⟨true, ""⟩ := by
  simp [validateMeasurement, truthy]

/-- C5: for every field type and unit, `validateMeasurement` on the empty
string and on `null` returns `isValid = true` with an empty message. -/
theorem validateMeasurement_empty_or_null (t u : String) :
    validateMeasurement emptyString t u = ⟨true, ""⟩ ∧
      validateMeasurement null t u = ⟨true, ""⟩ := by
  constructor <;> simp [validateMeasurement, truthy]

/-- A positive number given in inches with a table entry is valid exactly
inside the closed range of the entry. -/
theorem validateMeasurement_inches_of_range (t : String) (r : Range) (v : ℚ)
    (ht : validationRanges t = some r) (hv : 0 < v) :
    (validateMeasurement (num v) t INCHES).isValid = true ↔ (r.min : ℚ) ≤ v ∧ v ≤ (r.max : ℚ) := by
  have hv0 : v ≠ 0 := ne_of_gt hv
  simp only [validateMeasurement, isNaN, truthy, toNumber, parseFloat, JsValue.le, convertUnit,
    ht, JsValue.lt, JsValue.gt]
  simp [hv0, not_le.mpr hv]
  by_cases h1 : v < (r.min : ℚ)
  · simp [h1]
  · by_cases h2 : (r.max : ℚ) < v
    · simp [h1, h2]
    · simp [h1, h2, not_lt.mp h1, not_lt.mp h2]

/-- C6: for every field type of the plausibility table (neck 10-25, bust 20-60,
waist 20-60, hip 25-65, shoulder 12-30, sleeve 15-40, inseam 20-40, outseam
30-50, thigh 15-35, calf 10-25) and every positive value `v` in inches,
`validateMeasurement(v, t, inches).isValid` is true exactly when
`min ≤ v ≤ max`, both bounds included. -/
theorem validateMeasurement_inches_iff (t : String) (lo hi : ℕ) (v : ℚ)
    (ht : (t, lo, hi) ∈ [("neck", 10, 25), ("bust", 20, 60), ("waist", 20, 60), ("hip", 25, 65),
      ("shoulder", 12, 30), ("sleeve", 15, 40), ("inseam", 20, 40), ("outseam", 30, 50),
      ("thigh", 15, 35), ("calf", 10, 25)])
    (hv : 0 < v) :
    (validateMeasurement (num v) t INCHES).isValid = true ↔ (lo : ℚ) ≤ v ∧ v ≤ (hi : ℚ) := by
  have hr : validationRanges t = some ⟨lo, hi⟩ := by
    simp only [List.mem_cons, Prod.mk.injEq, List.mem_singleton, List.not_mem_nil, or_false] at ht
    rcases ht with ⟨rfl, rfl, rfl⟩ | ⟨rfl, rfl, rfl⟩ | ⟨rfl, rfl, rfl⟩ | ⟨rfl, rfl, rfl⟩ |
      ⟨rfl, rfl, rfl⟩ | ⟨rfl, rfl, rfl⟩ | ⟨rfl, rfl, rfl⟩ | ⟨rfl, rfl, rfl⟩ | ⟨rfl, rfl, rfl⟩ |
      ⟨rfl, rfl, rfl⟩ <;> simp [validationRanges]
  exact validateMeasurement_inches_of_range t ⟨lo, hi⟩ v hr hv

/-- Witness for C6: a 30 inch waist. -/
theorem validateMeasurement_inches_iff_witness :
    (0 : ℚ) < 30 ∧
      ((validateMeasurement (num 30) "waist" INCHES).isValid = true ↔
        ((20 : ℕ) : ℚ) ≤ 30 ∧ (30 : ℚ) ≤ ((60 : ℕ) : ℚ)) :=
  ⟨by norm_num, validateMeasurement_inches_iff "waist" 20 60 30 (by simp) (by norm_num)⟩

/-- C7 (counterexample): `height` has no entry in the plausibility table, yet
`validateMeasurement(-5, 'height', inches)` has `isValid = false`; so it is
not true that a field type without entry is valid for every value and unit. -/
theorem validateMeasurement_unknown_type_not_always_valid :
    ¬ (∀ (t : String) (value : JsValue) (u : String), validationRanges t = none →
        (validateMeasurement value t u).isValid = true) := by
  intro h
  have h1 := h "height" (num (-5)) INCHES (by simp [validationRanges])
  rw [validateMeasurement_negative (-5) "height" INCHES (by norm_num)] at h1
  simp at h1

/-- C7 (amended): for every field type without entry in the plausibility table,
every unit, and every value that is empty, `null`, absent, not a number, or a
positive number, `validateMeasurement` returns `isValid = true` with an empty
message. -/
theorem validateMeasurement_unknown_type_valid (t : String) (value : JsValue) (u : String)
    (ht : validationRanges t = none) (hv : ∀ q, value = num q → 0 < q) :
    validateMeasurement value t u = ⟨true, ""⟩ := by
  cases value with
  | num q =>
    have hq : 0 < q := hv q rfl
    have hq0 : q ≠ 0 := ne_of_gt hq
    simp [validateMeasurement, isNaN, truthy, toNumber, parseFloat, JsValue.le, ht, hq0,
      not_le.mpr hq]
  | nan => simp [validateMeasurement, truthy]
  | emptyString => simp [validateMeasurement, truthy]
  | null => simp [validateMeasurement, truthy]
  | undefined => simp [validateMeasurement, truthy]

/-- Witness for C7 (amended): a height of 170 cm. -/
theorem validateMeasurement_unknown_type_valid_witness :
    validationRanges "height" = none ∧ (∀ q : ℚ, num 170 = num q → 0 < q) ∧
      validateMeasurement (num 170) "height" CENTIMETERS = ⟨true, ""⟩ :=
  ⟨by simp [validationRanges], by intro q hq; injection hq with hq; rw [← hq]; norm_num,
    validateMeasurement_unknown_type_valid "height" (num 170) CENTIMETERS
      (by simp [validationRanges]) (by intro q hq; injection hq with hq; rw [← hq]; norm_num)⟩

/-! ## Body-mass index -/

/-- C8 (evaluation at the failing input): `calculateBMI(68, inches, 150)`
takes the height for `68 * 39.3701 = 2677.1668` meters, so the index rounds to
`0.0` and the category is `'Underweight'`, not `'Normal weight'`. -/
theorem calculateBMI_68_inches_150 :
    calculateBMI (num 68) INCHES (num 150) =
      some { bmi := num 0, category := "Underweight",
             heightInMeters := num 2677.17, weightInKg := num 68 } := by
  have hh : convertUnit (num 68) INCHES METERS = num 2677.1668 := by
    rw [convertUnit_of_factors 68 1 39.3701 INCHES METERS (by norm_num) (by decide)
      (by norm_num) (by simp [CONVERSION_FACTORS])
      (by simp [CONVERSION_FACTORS, INCHES, CENTIMETERS, FEET, METERS])]
    norm_num
  have s1 : fixedScaled 1 ((150 * 0.453592) / (2677.1668 * 2677.1668)) = 0 :=
    fixedScaled_eq 1 0 _ (by rw [abs_of_nonneg (by norm_num)]; norm_num)
      (by rw [abs_of_nonneg (by norm_num)]; norm_num)
  have s2 : fixedScaled 2 2677.1668 = 267717 :=
    fixedScaled_eq 2 267717 _ (by rw [abs_of_nonneg (by norm_num)]; norm_num)
      (by rw [abs_of_nonneg (by norm_num)]; norm_num)
  have s3 : fixedScaled 1 (150 * 0.453592) = 680 :=
    fixedScaled_eq 1 680 _ (by rw [abs_of_nonneg (by norm_num)]; norm_num)
      (by rw [abs_of_nonneg (by norm_num)]; norm_num)
  have hlt : (150 * 0.453592 : ℚ) / (2677.1668 * 2677.1668) < 18.5 := by norm_num
  have hn1 : ¬ (150 * 0.453592 : ℚ) / (2677.1668 * 2677.1668) < 0 := by norm_num
  have hn2 : ¬ (2677.1668 : ℚ) < 0 := by norm_num
  have hn3 : ¬ (150 * 0.453592 : ℚ) < 0 := by norm_num
  have hd : (2677.1668 : ℚ) * 2677.1668 ≠ 0 := by norm_num
  simp only [calculateBMI, hh, isNaN, truthy, toNumber, JsValue.mul, JsValue.div, JsValue.lt,
    parseFloatToFixed]
  simp only [hd, s1, s2, s3, hlt, hn1, hn2, hn3]
  norm_num
  exact fixedScaled_eq 1 0 _ (by rw [abs_of_nonneg (by norm_num)]; norm_num)
    (by rw [abs_of_nonneg (by norm_num)]; norm_num)

/-- C9: for a non-zero height `h` in meters and a non-zero weight `w` in
pounds, `calculateBMI(h, meters, w)` returns a result built from
`b = (0.453592 * w) / h^2`: its `bmi` is `b` rounded to one decimal and its
category is one of the four names, `'Underweight'` iff `b < 18.5`,
`'Normal weight'` iff `18.5 ≤ b < 25`, `'Overweight'` iff `25 ≤ b < 30`,
`'Obese'` iff `b ≥ 30`. -/
theorem calculateBMI_meters_category (h w : ℚ) (hh : h ≠ 0) (hw : w ≠ 0) :
    ∃ r : BMIResult, calculateBMI (num h) METERS (num w) = some r ∧
      r.bmi = parseFloatToFixed 1 (num (0.453592 * w / h ^ 2)) ∧
      r.category ∈ ["Underweight", "Normal weight", "Overweight", "Obese"] ∧
      (r.category = "Underweight" ↔ 0.453592 * w / h ^ 2 < 18.5) ∧
      (r.category = "Normal weight" ↔ 18.5 ≤ 0.453592 * w / h ^ 2 ∧ 0.453592 * w / h ^ 2 < 25) ∧
      (r.category = "Overweight" ↔ 25 ≤ 0.453592 * w / h ^ 2 ∧ 0.453592 * w / h ^ 2 < 30) ∧
      (r.category = "Obese" ↔ 30 ≤ 0.453592 * w / h ^ 2) := by
  have hd : h * h ≠ 0 := mul_ne_zero hh hh
  have hb : w * 0.453592 / (h * h) = 0.453592 * w / h ^ 2 := by
    rw [pow_two, mul_comm w]
  have hcalc : calculateBMI (num h) METERS (num w) = some
      { bmi := parseFloatToFixed 1 (num (0.453592 * w / h ^ 2))
        category :=
          if 0.453592 * w / h ^ 2 < 18.5 then "Underweight"
          else if 0.453592 * w / h ^ 2 < 25 then "Normal weight"
          else if 0.453592 * w / h ^ 2 < 30 then "Overweight"
          else "Obese"
        heightInMeters := parseFloatToFixed 2 (num h)
        weightInKg := parseFloatToFixed 1 (num (w * 0.453592)) } := by
    simp only [calculateBMI, convertUnit, isNaN, truthy, toNumber, JsValue.mul, JsValue.div,
      JsValue.lt]
    simp [hh, hw, hd, hb]
  refine ⟨_, hcalc, rfl, ?_, ?_, ?_, ?_, ?_⟩
  all_goals
    by_cases c1 : 0.453592 * w / h ^ 2 < 18.5
    · have c2 : 0.453592 * w / h ^ 2 < 25 := lt_trans c1 (by norm_num)
      have c3 : 0.453592 * w / h ^ 2 < 30 := lt_trans c1 (by norm_num)
      simp [c1, c2, c3, not_le.mpr c1, not_le.mpr c2, not_le.mpr c3]
    · by_cases c2 : 0.453592 * w / h ^ 2 < 25
      · have c3 : 0.453592 * w / h ^ 2 < 30 := lt_trans c2 (by norm_num)
        simp [c1, c2, c3, not_lt.mp c1, not_le.mpr c2, not_le.mpr c3]
      · by_cases c3 : 0.453592 * w / h ^ 2 < 30
        · simp [c1, c2, c3, not_lt.mp c1, not_lt.mp c2, not_le.mpr c3]
        · simp [c1, c2, c3, not_lt.mp c1, not_lt.mp c2, not_lt.mp c3]

/-- Witness for C9: a height of 1.75 m and a weight of 150 lb. -/
theorem calculateBMI_meters_category_witness :
    (1.75 : ℚ) ≠ 0 ∧ (150 : ℚ) ≠ 0 ∧
    ∃ r : BMIResult, calculateBMI (num 1.75) METERS (num 150) = some r ∧
      r.bmi = parseFloatToFixed 1 (num (0.453592 * 150 / 1.75 ^ 2)) ∧
      r.category ∈ ["Underweight", "Normal weight", "Overweight", "Obese"] ∧
      (r.category = "Underweight" ↔ 0.453592 * 150 / (1.75 : ℚ) ^ 2 < 18.5) ∧
      (r.category = "Normal weight" ↔
        18.5 ≤ 0.453592 * 150 / (1.75 : ℚ) ^ 2 ∧ 0.453592 * 150 / (1.75 : ℚ) ^ 2 < 25) ∧
      (r.category = "Overweight" ↔
        25 ≤ 0.453592 * 150 / (1.75 : ℚ) ^ 2 ∧ 0.453592 * 150 / (1.75 : ℚ) ^ 2 < 30) ∧
      (r.category = "Obese" ↔ 30 ≤ 0.453592 * 150 / (1.75 : ℚ) ^ 2) :=
  ⟨by norm_num, by norm_num, calculateBMI_meters_category 1.75 150 (by norm_num) (by norm_num)⟩

end UnitConversion

namespace MeasurementValidator
open UnitConversion UnitConversion.JsValue

/-! ## Cross-field validation -/

/-- A cross-check step keeps every issue recorded so far. -/
theorem mem_issues_crossStep (r : Results) (c : CrossCheck) (i : Issue) (h : i ∈ r.issues) :
    i ∈ (crossStep r c).issues := by
  unfold crossStep
  split_ifs <;> simp [h]

/-- The cross-check loop keeps every issue recorded so far. -/
theorem mem_issues_foldl_crossStep (cs : List CrossCheck) (r : Results) (i : Issue)
    (h : i ∈ r.issues) : i ∈ (cs.foldl crossStep r).issues := by
  induction cs generalizing r with
  | nil => simpa using h
  | cons c cs ih => exact ih (crossStep r c) (mem_issues_crossStep r c i h)

/-- A check of severity `'error'` that fires leaves its issue on record at the
end of the cross-check loop. -/
theorem mem_issues_foldl_of_error (cs : List CrossCheck) (r : Results) (c : CrossCheck)
    (hc : c ∈ cs) (hcheck : c.check = true) (hsev : c.severity = "error") :
    (⟨"cross-validation", c.message, c.severity⟩ : Issue) ∈ (cs.foldl crossStep r).issues := by
  induction cs generalizing r with
  | nil => simp at hc
  | cons d ds ih =>
    rcases List.mem_cons.mp hc with h | h
    · subst h
      rw [List.foldl_cons]
      apply mem_issues_foldl_crossStep
      simp [crossStep, hcheck, hsev]
    · rw [List.foldl_cons]
      exact ih (crossStep r d) h

/-- The suggestions block leaves `issues` alone. -/
theorem issues_addSuggestions (ms : MeasurementSet) (r : Results) :
    (addSuggestions ms r).issues = r.issues := by
  simp only [addSuggestions]
  split_ifs <;> rfl

/-- The suggestions block leaves `overall` alone. -/
theorem overall_addSuggestions (ms : MeasurementSet) (r : Results) :
    (addSuggestions ms r).overall = r.overall := by
  simp only [addSuggestions]
  split_ifs <;> rfl

/-- The final block leaves `issues` alone. -/
theorem issues_setOverall (r : Results) : (setOverall r).issues = r.issues := by
  unfold setOverall
  split_ifs <;> rfl

/-- With an issue on record the final block sets `overall` to `'invalid'`. -/
theorem overall_setOverall_of_issue (r : Results) (i : Issue) (h : i ∈ r.issues) :
    (setOverall r).overall = "invalid" := by
  have hpos : r.issues.length > 0 := List.length_pos_of_mem h
  simp [setOverall, hpos]

/-- C10: for every measurement set whose `inseam` and `outseam` are both
present (each holds a non-zero number, the presence test of the code) with
`inseam > outseam`, `validateAllMeasurements` records an issue of severity
`'error'` and returns `overall = 'invalid'`, whatever the display unit. -/
theorem validateAllMeasurements_inseam_gt_outseam (selectedUnit : String) (ms : MeasurementSet)
    (a b : ℚ) (hi : ms "inseam" = num a) (ho : ms "outseam" = num b) (ha : a ≠ 0) (hb : b ≠ 0)
    (hgt : b < a) :
    (∃ i ∈ (validateAllMeasurements selectedUnit ms).issues, i.severity = "error") ∧
      (validateAllMeasurements selectedUnit ms).overall = "invalid" := by
  have hmem : (⟨"cross-validation", "Inseam is longer than outseam, which is not possible",
      "error"⟩ : Issue) ∈ (validateAllMeasurements selectedUnit ms).issues := by
    unfold validateAllMeasurements
    simp only [issues_addSuggestions, issues_setOverall]
    exact mem_issues_foldl_of_error (crossValidationChecks ms) _
      { check := (ms "inseam").truthy && (ms "outseam").truthy
          && (ms "inseam").gt (ms "outseam")
        message := "Inseam is longer than outseam, which is not possible"
        severity := "error" }
      (by simp [crossValidationChecks])
      (by simp [hi, ho, truthy, JsValue.gt, JsValue.lt, toNumber, ha, hb, hgt]) rfl
  refine ⟨⟨_, hmem, rfl⟩, ?_⟩
  unfold validateAllMeasurements at hmem ⊢
  simp only [issues_addSuggestions, issues_setOverall] at hmem
  rw [overall_addSuggestions]
  exact overall_setOverall_of_issue _ _ hmem

/-- Witness for C10: the set `{ waist: 20, inseam: 34, outseam: 30 }`. -/
theorem validateAllMeasurements_inseam_gt_outseam_witness :
    exampleSet "inseam" = num 34 ∧ exampleSet "outseam" = num 30 ∧ (34 : ℚ) ≠ 0 ∧ (30 : ℚ) ≠ 0 ∧
      (30 : ℚ) < 34 ∧
      (∃ i ∈ (validateAllMeasurements INCHES exampleSet).issues, i.severity = "error") ∧
      (validateAllMeasurements INCHES exampleSet).overall = "invalid" :=
  ⟨by simp [exampleSet], by simp [exampleSet], by norm_num, by norm_num, by norm_num,
    validateAllMeasurements_inseam_gt_outseam INCHES exampleSet 34 30 (by simp [exampleSet])
      (by simp [exampleSet]) (by norm_num) (by norm_num) (by norm_num)⟩

end MeasurementValidator

namespace MeasurementValidator
open UnitConversion UnitConversion.JsValue

/-! ## Overall status and score -/

/-- One step of the first loop appends to `issues` the error of a present
field that fails `validateMeasurement`, and nothing else. -/
theorem fieldStep_issues (ms : MeasurementSet) (u : String) (st : LoopState)
    (e : String × MeasurementRange) :
    (fieldStep ms u st e).results.issues = st.results.issues ++
      (if fieldPresent ms e.1 && !fieldValid ms e.1 then
        [⟨e.1, (validateMeasurement (parseFloat (ms e.1)) e.1 INCHES).message, "error"⟩]
      else []) := by
  simp only [fieldStep, fieldPresent, fieldValid]
  split_ifs <;> simp_all

/-- One step of the first loop appends to `warnings` the warning of a present
field that is valid and outside its typical range, and nothing else. -/
theorem fieldStep_warnings (ms : MeasurementSet) (u : String) (st : LoopState)
    (e : String × MeasurementRange) :
    (fieldStep ms u st e).results.warnings = st.results.warnings ++
      (if fieldPresent ms e.1 && (fieldValid ms e.1 &&
          !((parseFloat (ms e.1)).ge (num e.2.typicalLo) &&
            (parseFloat (ms e.1)).le (num e.2.typicalHi))) then
        [⟨e.1, typicalMessage e.1 (parseFloat (ms e.1)) u, "warning"⟩]
      else []) := by
  simp only [fieldStep, fieldPresent, fieldValid]
  split_ifs <;> simp_all

/-- One step of the first loop leaves `overall` alone. -/
theorem fieldStep_overall (ms : MeasurementSet) (u : String) (st : LoopState)
    (e : String × MeasurementRange) :
    (fieldStep ms u st e).results.overall = st.results.overall := by
  simp only [fieldStep]
  split_ifs <;> rfl

/-- One step of the first loop counts a present field in `totalCount` and a
present field that passes `validateMeasurement` in `validCount`. -/
theorem fieldStep_counts (ms : MeasurementSet) (u : String) (st : LoopState)
    (e : String × MeasurementRange) :
    (fieldStep ms u st e).totalCount =
      st.totalCount + (if fieldPresent ms e.1 then 1 else 0) ∧
    (fieldStep ms u st e).validCount =
      st.validCount + (if fieldPresent ms e.1 && fieldValid ms e.1 then 1 else 0) := by
  simp only [fieldStep, fieldPresent, fieldValid]
  split_ifs <;> simp_all

/-- Every issue left by the first loop was there before or is the error of a
present field that fails `validateMeasurement`. -/
theorem foldl_fieldStep_issues (ms : MeasurementSet) (u : String)
    (l : List (String × MeasurementRange)) (st : LoopState) :
    ∀ i ∈ (l.foldl (fieldStep ms u) st).results.issues, i ∈ st.results.issues ∨
      ∃ e ∈ l, i.field = e.1 ∧ i.severity = "error" ∧ fieldPresent ms e.1 = true ∧
        fieldValid ms e.1 = false := by
  induction l generalizing st with
  | nil => intro i hi; exact Or.inl hi
  | cons e l ih =>
    intro i hi
    rw [List.foldl_cons] at hi
    rcases ih (fieldStep ms u st e) i hi with h | ⟨e2, he2, h⟩
    · rw [fieldStep_issues] at h
      rcases List.mem_append.mp h with h | h
      · exact Or.inl h
      · right
        refine ⟨e, List.mem_cons_self _ _, ?_⟩
        split_ifs at h with hc
        · rw [List.mem_singleton.mp h]
          simp only [Bool.and_eq_true, Bool.not_eq_true'] at hc
          exact ⟨rfl, rfl, hc.1, hc.2⟩
        · simp at h
    · exact Or.inr ⟨e2, List.mem_cons_of_mem _ he2, h⟩

/-- Every warning left by the first loop was there before or has severity
`'warning'` and the name of a field of the loop. -/
theorem foldl_fieldStep_warnings (ms : MeasurementSet) (u : String)
    (l : List (String × MeasurementRange)) (st : LoopState) :
    ∀ w ∈ (l.foldl (fieldStep ms u) st).results.warnings, w ∈ st.results.warnings ∨
      (w.severity = "warning" ∧ w.field ∈ l.map Prod.fst) := by
  induction l generalizing st with
  | nil => intro w hw; exact Or.inl hw
  | cons e l ih =>
    intro w hw
    rw [List.foldl_cons] at hw
    rcases ih (fieldStep ms u st e) w hw with h | h
    · rw [fieldStep_warnings] at h
      rcases List.mem_append.mp h with h | h
      · exact Or.inl h
      · right
        split_ifs at h
        · rw [List.mem_singleton.mp h]
          simp
        · simp at h
    · exact Or.inr ⟨h.1, by simp [h.2]⟩

/-- The first loop leaves `overall` alone. -/
theorem foldl_fieldStep_overall (ms : MeasurementSet) (u : String)
    (l : List (String × MeasurementRange)) (st : LoopState) :
    (l.foldl (fieldStep ms u) st).results.overall = st.results.overall := by
  induction l generalizing st with
  | nil => rfl
  | cons e l ih => rw [List.foldl_cons, ih, fieldStep_overall]

/-- The counters after the first loop: `totalCount` counts the present fields,
`validCount` the present fields that pass `validateMeasurement`. -/
theorem foldl_fieldStep_counts (ms : MeasurementSet) (u : String)
    (l : List (String × MeasurementRange)) (st : LoopState) :
    (l.foldl (fieldStep ms u) st).totalCount =
      st.totalCount + l.countP (fun e => fieldPresent ms e.1) ∧
    (l.foldl (fieldStep ms u) st).validCount =
      st.validCount + l.countP (fun e => fieldPresent ms e.1 && fieldValid ms e.1) := by
  induction l generalizing st with
  | nil => simp
  | cons e l ih =>
    rw [List.foldl_cons]
    obtain ⟨h1, h2⟩ := ih (fieldStep ms u st e)
    obtain ⟨c1, c2⟩ := fieldStep_counts ms u st e
    rw [h1, h2, c1, c2, List.countP_cons, List.countP_cons]
    constructor <;> omega

/-- A cross-check step appends to `issues` the finding of a firing check of
severity `'error'`, and nothing else. -/
theorem crossStep_issues (r : Results) (c : CrossCheck) :
    (crossStep r c).issues = r.issues ++
      (if c.check = true ∧ c.severity = "error" then
        [⟨"cross-validation", c.message, c.severity⟩] else []) := by
  simp only [crossStep]
  split_ifs <;> simp_all

/-- A cross-check step appends to `warnings` the finding of a firing check of
another severity, and nothing else. -/
theorem crossStep_warnings (r : Results) (c : CrossCheck) :
    (crossStep r c).warnings = r.warnings ++
      (if c.check = true ∧ c.severity ≠ "error" then
        [⟨"cross-validation", c.message, c.severity⟩] else []) := by
  simp only [crossStep]
  split_ifs <;> simp_all

/-- A cross-check step leaves `overall` alone. -/
theorem crossStep_overall (r : Results) (c : CrossCheck) :
    (crossStep r c).overall = r.overall := by
  simp only [crossStep]
  split_ifs <;> rfl

/-- Every issue left by the cross-check loop was there before or is the finding
of a firing check of severity `'error'`. -/
theorem foldl_crossStep_issues (cs : List CrossCheck) (r : Results) :
    ∀ i ∈ (cs.foldl crossStep r).issues, i ∈ r.issues ∨
      ∃ c ∈ cs, c.check = true ∧ c.severity = "error" ∧
        i = ⟨"cross-validation", c.message, c.severity⟩ := by
  induction cs generalizing r with
  | nil => intro i hi; exact Or.inl hi
  | cons c cs ih =>
    intro i hi
    rw [List.foldl_cons] at hi
    rcases ih (crossStep r c) i hi with h | ⟨c2, hc2, h⟩
    · rw [crossStep_issues] at h
      rcases List.mem_append.mp h with h | h
      · exact Or.inl h
      · right
        refine ⟨c, List.mem_cons_self _ _, ?_⟩
        split_ifs at h with hc
        · exact ⟨hc.1, hc.2, List.mem_singleton.mp h⟩
        · simp at h
    · exact Or.inr ⟨c2, List.mem_cons_of_mem _ hc2, h⟩

/-- Every warning left by the cross-check loop was there before or is the
finding of a firing check whose severity is not `'error'`. -/
theorem foldl_crossStep_warnings (cs : List CrossCheck) (r : Results) :
    ∀ w ∈ (cs.foldl crossStep r).warnings, w ∈ r.warnings ∨
      ∃ c ∈ cs, c.check = true ∧ c.severity ≠ "error" ∧
        w = ⟨"cross-validation", c.message, c.severity⟩ := by
  induction cs generalizing r with
  | nil => intro w hw; exact Or.inl hw
  | cons c cs ih =>
    intro w hw
    rw [List.foldl_cons] at hw
    rcases ih (crossStep r c) w hw with h | ⟨c2, hc2, h⟩
    · rw [crossStep_warnings] at h
      rcases List.mem_append.mp h with h | h
      · exact Or.inl h
      · right
        refine ⟨c, List.mem_cons_self _ _, ?_⟩
        split_ifs at h with hc
        · exact ⟨hc.1, hc.2, List.mem_singleton.mp h⟩
        · simp at h
    · exact Or.inr ⟨c2, List.mem_cons_of_mem _ hc2, h⟩

/-- The cross-check loop keeps every warning recorded so far. -/
theorem mem_warnings_foldl_crossStep (cs : List CrossCheck) (r : Results) (w : Issue)
    (h : w ∈ r.warnings) : w ∈ (cs.foldl crossStep r).warnings := by
  induction cs generalizing r with
  | nil => simpa using h
  | cons c cs ih =>
    rw [List.foldl_cons]
    apply ih
    rw [crossStep_warnings]
    exact List.mem_append_left _ h

/-- A firing check whose severity is not `'error'` leaves its finding among the
warnings at the end of the cross-check loop. -/
theorem mem_warnings_foldl_of_check (cs : List CrossCheck) (r : Results) (c : CrossCheck)
    (hc : c ∈ cs) (hcheck : c.check = true) (hsev : c.severity ≠ "error") :
    (⟨"cross-validation", c.message, c.severity⟩ : Issue) ∈ (cs.foldl crossStep r).warnings := by
  induction cs generalizing r with
  | nil => simp at hc
  | cons d ds ih =>
    rw [List.foldl_cons]
    rcases List.mem_cons.mp hc with h | h
    · subst h
      apply mem_warnings_foldl_crossStep
      rw [crossStep_warnings]
      simp [hcheck, hsev]
    · exact ih (crossStep r d) h

/-- The cross-check loop leaves `overall` alone. -/
theorem foldl_crossStep_overall (cs : List CrossCheck) (r : Results) :
    (cs.foldl crossStep r).overall = r.overall := by
  induction cs generalizing r with
  | nil => rfl
  | cons c cs ih => rw [List.foldl_cons, ih, crossStep_overall]

/-- The suggestions block leaves `warnings` alone. -/
theorem warnings_addSuggestions (ms : MeasurementSet) (r : Results) :
    (addSuggestions ms r).warnings = r.warnings := by
  simp only [addSuggestions]
  split_ifs <;> rfl

/-- The suggestions block leaves `score` alone. -/
theorem score_addSuggestions (ms : MeasurementSet) (r : Results) :
    (addSuggestions ms r).score = r.score := by
  simp only [addSuggestions]
  split_ifs <;> rfl

/-- The final block leaves `warnings` alone. -/
theorem warnings_setOverall (r : Results) : (setOverall r).warnings = r.warnings := by
  unfold setOverall
  split_ifs <;> rfl

/-- The final block leaves `score` alone. -/
theorem score_setOverall (r : Results) : (setOverall r).score = r.score := by
  unfold setOverall
  split_ifs <;> rfl

/-- The lists `issues` and `warnings` returned by `validateAllMeasurements` are
those left by the two loops. -/
theorem validateAllMeasurements_lists (u : String) (ms : MeasurementSet) :
    (validateAllMeasurements u ms).issues =
      ((crossValidationChecks ms).foldl crossStep
        (measurementRanges.foldl (fieldStep ms u)
          { results := initialResults, validCount := 0, totalCount := 0 }).results).issues ∧
    (validateAllMeasurements u ms).warnings =
      ((crossValidationChecks ms).foldl crossStep
        (measurementRanges.foldl (fieldStep ms u)
          { results := initialResults, validCount := 0, totalCount := 0 }).results).warnings := by
  unfold validateAllMeasurements
  constructor
  · rw [issues_addSuggestions, issues_setOverall]
  · rw [warnings_addSuggestions, warnings_setOverall]

/-- The field `overall` is computed from the final lengths of `issues` and
`warnings`, starting from `'valid'`. -/
theorem overall_from_lists (u : String) (ms : MeasurementSet) :
    (validateAllMeasurements u ms).overall =
      if (validateAllMeasurements u ms).issues.length > 0 then "invalid"
      else if (validateAllMeasurements u ms).warnings.length > 0 then "warning"
      else "valid" := by
  obtain ⟨hi, hw⟩ := validateAllMeasurements_lists u ms
  rw [hi, hw]
  unfold validateAllMeasurements
  rw [overall_addSuggestions]
  simp only [setOverall]
  split_ifs
  · rfl
  · rfl
  · show ((crossValidationChecks ms).foldl crossStep _).overall = "valid"
    rw [foldl_crossStep_overall, foldl_fieldStep_overall]
    rfl

/-- No field name of `measurementRanges` is `cross-validation`. -/
theorem field_ne_cross (e : String × MeasurementRange) (he : e ∈ measurementRanges) :
    e.1 ≠ "cross-validation" := by
  simp only [measurementRanges, List.mem_cons, List.mem_singleton, List.not_mem_nil,
    or_false] at he
  rcases he with rfl | rfl | rfl | rfl | rfl | rfl | rfl | rfl | rfl | rfl | rfl <;> decide

/-- Of the four cross-checks only `inseam > outseam` has severity `'error'`; the
other three have severity `'warning'`. -/
theorem crossCheck_cases (ms : MeasurementSet) (c : CrossCheck)
    (hc : c ∈ crossValidationChecks ms) :
    (c.severity = "error" ∧ c.check = inseamOverOutseam ms ∧
      c.message = "Inseam is longer than outseam, which is not possible") ∨
    c.severity = "warning" := by
  simp only [crossValidationChecks, List.mem_cons, List.mem_singleton, List.not_mem_nil,
    or_false] at hc
  rcases hc with rfl | rfl | rfl | rfl
  · exact Or.inr rfl
  · exact Or.inr rfl
  · exact Or.inl ⟨rfl, rfl, rfl⟩
  · exact Or.inr rfl

/-- Every entry of `issues` is an error, and one filed under `cross-validation`
is the finding `inseam > outseam`. -/
theorem issues_classified (u : String) (ms : MeasurementSet) :
    ∀ i ∈ (validateAllMeasurements u ms).issues,
      i.severity = "error" ∧
      ((∃ e ∈ measurementRanges, i.field = e.1 ∧ fieldPresent ms e.1 = true ∧
          fieldValid ms e.1 = false) ∨
        (i.field = "cross-validation" ∧ inseamOverOutseam ms = true ∧
          i.message = "Inseam is longer than outseam, which is not possible")) := by
  intro i hi
  rw [(validateAllMeasurements_lists u ms).1] at hi
  rcases foldl_crossStep_issues _ _ i hi with h | ⟨c, hc, hcheck, hsev, rfl⟩
  · rcases foldl_fieldStep_issues ms u _ _ i h with h | ⟨e, he, hf, hs, hp, hv⟩
    · simp [initialResults] at h
    · exact ⟨hs, Or.inl ⟨e, he, hf, hp, hv⟩⟩
  · refine ⟨hsev, Or.inr ⟨rfl, ?_, ?_⟩⟩
    · rcases crossCheck_cases ms c hc with ⟨_, h2, _⟩ | h
      · rw [← h2]; exact hcheck
      · rw [h] at hsev; exact absurd hsev (by decide)
    · rcases crossCheck_cases ms c hc with ⟨_, _, h3⟩ | h
      · exact h3
      · rw [h] at hsev; exact absurd hsev (by decide)

/-- Every entry of `warnings` has severity `'warning'`. -/
theorem warnings_classified (u : String) (ms : MeasurementSet) :
    ∀ w ∈ (validateAllMeasurements u ms).warnings, w.severity = "warning" := by
  intro w hw
  rw [(validateAllMeasurements_lists u ms).2] at hw
  rcases foldl_crossStep_warnings _ _ w hw with h | ⟨c, hc, _, hsev, rfl⟩
  · rcases foldl_fieldStep_warnings ms u _ _ w h with h | h
    · simp [initialResults] at h
    · exact h.1
  · rcases crossCheck_cases ms c hc with ⟨h1, _, _⟩ | h
    · exact absurd h1 hsev
    · exact h

/-- A firing cross-check of severity `'warning'` is on record in `warnings`. -/
theorem cross_warning_recorded (u : String) (ms : MeasurementSet) (c : CrossCheck)
    (hc : c ∈ crossValidationChecks ms) (hcheck : c.check = true)
    (hsev : c.severity = "warning") :
    (⟨"cross-validation", c.message, "warning"⟩ : Issue) ∈
      (validateAllMeasurements u ms).warnings := by
  rw [(validateAllMeasurements_lists u ms).2]
  have h := mem_warnings_foldl_of_check (crossValidationChecks ms)
    (measurementRanges.foldl (fieldStep ms u)
      { results := initialResults, validCount := 0, totalCount := 0 }).results c hc hcheck
    (by rw [hsev]; decide)
  rw [hsev] at h
  exact h

/-- C11: for every measurement set, `issues` holds only entries of severity
`'error'` and `warnings` only entries of severity `'warning'`; `overall` is
`'invalid'` if an error is on record, otherwise `'warning'` if a warning is on
record, otherwise `'valid'`. The findings `waist > hip`, `bust < waist` and
`thigh < calf` go to `warnings` when they fire, the only cross-field entry of
`issues` is `inseam > outseam`, and when every present field passes
`validateMeasurement` and `inseam > outseam` does not fire the result is not
`'invalid'`, whatever the other three checks find. -/
theorem validateAllMeasurements_overall (u : String) (ms : MeasurementSet) :
    (∀ i ∈ (validateAllMeasurements u ms).issues, i.severity = "error") ∧
    (∀ w ∈ (validateAllMeasurements u ms).warnings, w.severity = "warning") ∧
    ((∃ i ∈ (validateAllMeasurements u ms).issues, i.severity = "error") →
      (validateAllMeasurements u ms).overall = "invalid") ∧
    ((¬ ∃ i ∈ (validateAllMeasurements u ms).issues, i.severity = "error") →
      (∃ w ∈ (validateAllMeasurements u ms).warnings, w.severity = "warning") →
      (validateAllMeasurements u ms).overall = "warning") ∧
    ((¬ ∃ i ∈ (validateAllMeasurements u ms).issues, i.severity = "error") →
      (¬ ∃ w ∈ (validateAllMeasurements u ms).warnings, w.severity = "warning") →
      (validateAllMeasurements u ms).overall = "valid") ∧
    (waistOverHip ms = true →
      (⟨"cross-validation", "Waist measurement is larger than hip measurement, which is unusual",
        "warning"⟩ : Issue) ∈ (validateAllMeasurements u ms).warnings) ∧
    (bustUnderWaist ms = true →
      (⟨"cross-validation", "Bust measurement is smaller than waist measurement, please verify",
        "warning"⟩ : Issue) ∈ (validateAllMeasurements u ms).warnings) ∧
    (thighUnderCalf ms = true →
      (⟨"cross-validation", "Thigh measurement is smaller than calf measurement, please verify",
        "warning"⟩ : Issue) ∈ (validateAllMeasurements u ms).warnings) ∧
    (∀ i ∈ (validateAllMeasurements u ms).issues, i.field = "cross-validation" →
      i.message = "Inseam is longer than outseam, which is not possible" ∧
        inseamOverOutseam ms = true) ∧
    ((∀ e ∈ measurementRanges, fieldPresent ms e.1 = true → fieldValid ms e.1 = true) →
      inseamOverOutseam ms = false →
      (validateAllMeasurements u ms).overall ≠ "invalid") := by
  have hI := issues_classified u ms
  have hW := warnings_classified u ms
  have hO := overall_from_lists u ms
  refine ⟨fun i hi => (hI i hi).1, hW, ?_, ?_, ?_, ?_, ?_, ?_, ?_, ?_⟩
  · rintro ⟨i, hi, _⟩
    rw [hO, if_pos (List.length_pos_of_mem hi)]
  · rintro hno ⟨w, hw, _⟩
    have hnil : ¬ (validateAllMeasurements u ms).issues.length > 0 := by
      intro hpos
      obtain ⟨i, hi⟩ := List.exists_mem_of_length_pos hpos
      exact hno ⟨i, hi, (hI i hi).1⟩
    rw [hO, if_neg hnil, if_pos (List.length_pos_of_mem hw)]
  · intro hno hnw
    have hnil : ¬ (validateAllMeasurements u ms).issues.length > 0 := by
      intro hpos
      obtain ⟨i, hi⟩ := List.exists_mem_of_length_pos hpos
      exact hno ⟨i, hi, (hI i hi).1⟩
    have hnil2 : ¬ (validateAllMeasurements u ms).warnings.length > 0 := by
      intro hpos
      obtain ⟨w, hw⟩ := List.exists_mem_of_length_pos hpos
      exact hnw ⟨w, hw, hW w hw⟩
    rw [hO, if_neg hnil, if_neg hnil2]
  · intro h
    exact cross_warning_recorded u ms
      { check := waistOverHip ms
        message := "Waist measurement is larger than hip measurement, which is unusual"
        severity := "warning" }
      (by simp [crossValidationChecks, waistOverHip]) h rfl
  · intro h
    exact cross_warning_recorded u ms
      { check := bustUnderWaist ms
        message := "Bust measurement is smaller than waist measurement, please verify"
        severity := "warning" }
      (by simp [crossValidationChecks, bustUnderWaist]) h rfl
  · intro h
    exact cross_warning_recorded u ms
      { check := thighUnderCalf ms
        message := "Thigh measurement is smaller than calf measurement, please verify"
        severity := "warning" }
      (by simp [crossValidationChecks, thighUnderCalf]) h rfl
  · intro i hi hf
    rcases (hI i hi).2 with ⟨e, he, hfe, _, _⟩ | ⟨_, hc, hm⟩
    · exact absurd (hfe ▸ hf) (field_ne_cross e he)
    · exact ⟨hm, hc⟩
  · intro hfields hinseam
    have hnil : ¬ (validateAllMeasurements u ms).issues.length > 0 := by
      intro hpos
      obtain ⟨i, hi⟩ := List.exists_mem_of_length_pos hpos
      rcases (hI i hi).2 with ⟨e, he, _, hp, hv⟩ | ⟨_, hc, _⟩
      · rw [hfields e he hp] at hv
        exact absurd hv (by decide)
      · rw [hinseam] at hc
        exact absurd hc (by decide)
    rw [hO, if_neg hnil]
    split_ifs <;> decide

/-- Witness for C11: in the set `{ waist: 40, hip: 36 }` the check `waist > hip`
fires and is on record as a warning. -/
theorem validateAllMeasurements_overall_witness :
    waistOverHip waistHipSet = true ∧
      (⟨"cross-validation", "Waist measurement is larger than hip measurement, which is unusual",
        "warning"⟩ : Issue) ∈ (validateAllMeasurements INCHES waistHipSet).warnings :=
  have h : waistOverHip waistHipSet = true := by
    simp [waistOverHip, waistHipSet, truthy, JsValue.gt, JsValue.lt, toNumber]
    norm_num
  ⟨h, (validateAllMeasurements_overall INCHES waistHipSet).2.2.2.2.2.1 h⟩

/-- The rounding of `Math.round` on a ratio `v / t` with `v ≤ t` stays between
0 and 100. -/
theorem scoreOf_bounds (v t : ℕ) (h : v ≤ t) : 0 ≤ scoreOf v t ∧ scoreOf v t ≤ 100 := by
  unfold scoreOf
  split_ifs with ht
  · have htq : (0 : ℚ) < (t : ℚ) := by exact_mod_cast ht
    have hvq : (v : ℚ) ≤ (t : ℚ) := by exact_mod_cast h
    have h0 : (0 : ℚ) ≤ (v : ℚ) / (t : ℚ) := by positivity
    have h1 : (v : ℚ) / (t : ℚ) ≤ 1 := by
      rw [div_le_one htq]
      exact hvq
    unfold mathRound
    constructor
    · rw [Int.floor_nonneg]
      linarith
    · have : ⌊(v : ℚ) / (t : ℚ) * 100 + 1 / 2⌋ < 101 := by
        rw [Int.floor_lt]
        push_cast
        linarith
      omega
  · exact ⟨le_refl _, by norm_num⟩

/-- C12: with `total` the number of present numeric fields and `valid` the
number of present fields that pass `validateMeasurement`, the score returned by
`validateAllMeasurements` is `Math.round(100 * valid / total)` when
`total > 0`, is 0 when no numeric field is present, and always lies between 0
and 100. -/
theorem validateAllMeasurements_score (u : String) (ms : MeasurementSet) :
    (0 < measurementRanges.countP (fun e => fieldPresent ms e.1) →
      (validateAllMeasurements u ms).score =
        mathRound (100 * (measurementRanges.countP
            (fun e => fieldPresent ms e.1 && fieldValid ms e.1) : ℚ) /
          (measurementRanges.countP (fun e => fieldPresent ms e.1) : ℚ))) ∧
    (measurementRanges.countP (fun e => fieldPresent ms e.1) = 0 →
      (validateAllMeasurements u ms).score = 0) ∧
    0 ≤ (validateAllMeasurements u ms).score ∧ (validateAllMeasurements u ms).score ≤ 100 := by
  obtain ⟨ht, hv⟩ := foldl_fieldStep_counts ms u measurementRanges
    { results := initialResults, validCount := 0, totalCount := 0 }
  simp only [Nat.zero_add] at ht hv
  have hs : (validateAllMeasurements u ms).score =
      scoreOf (measurementRanges.countP (fun e => fieldPresent ms e.1 && fieldValid ms e.1))
        (measurementRanges.countP (fun e => fieldPresent ms e.1)) := by
    unfold validateAllMeasurements
    rw [score_addSuggestions, score_setOverall]
    show scoreOf _ _ = _
    rw [ht, hv]
  have hle : measurementRanges.countP (fun e => fieldPresent ms e.1 && fieldValid ms e.1) ≤
      measurementRanges.countP (fun e => fieldPresent ms e.1) := by
    apply List.countP_mono_left
    intro e _ h
    simp only [Bool.and_eq_true] at h
    exact h.1
  refine ⟨?_, ?_, ?_⟩
  · intro hpos
    rw [hs, scoreOf, if_pos hpos]
    congr 1
    ring
  · intro hz
    rw [hs, scoreOf, hz]
    simp
  · rw [hs]
    exact scoreOf_bounds _ _ hle

/-- Witness for C12: in the set `{ waist: 20, inseam: 34, outseam: 30 }` a
numeric field is present, and the score is the rounded percentage. -/
theorem validateAllMeasurements_score_witness :
    0 < measurementRanges.countP (fun e => fieldPresent exampleSet e.1) ∧
      (validateAllMeasurements INCHES exampleSet).score =
        mathRound (100 * (measurementRanges.countP
            (fun e => fieldPresent exampleSet e.1 && fieldValid exampleSet e.1) : ℚ) /
          (measurementRanges.countP (fun e => fieldPresent exampleSet e.1) : ℚ)) :=
  have h : 0 < measurementRanges.countP (fun e => fieldPresent exampleSet e.1) := by
    apply List.countP_pos_iff.mpr
    exact ⟨("waist", ⟨24, 45, 28, 36⟩), by simp [measurementRanges],
      by simp [fieldPresent, exampleSet, truthy, isNaN, toNumber]⟩
  ⟨h, (validateAllMeasurements_score INCHES exampleSet).1 h⟩

end MeasurementValidator

namespace DeliveryRoutes
open Marketplace

/-! ## Delivery state machine -/

/-- A row found under a key has that key. -/
theorem findDelivery_id (db : Db) (id : Key) (d : Delivery) (h : db.findDelivery id = some d) :
    d.id = id := by
  unfold Db.findDelivery at h
  have := List.find?_some h
  simpa using this

/-- Looking a key up after a save: the saved row under its own key when that
key was stored, and the old answer under any other key. -/
theorem findDelivery_saveDelivery (db : Db) (x : Delivery) (id : Key) :
    (db.saveDelivery x).findDelivery id =
      if id = x.id then (db.findDelivery id).map (fun _ => x) else db.findDelivery id := by
  unfold Db.findDelivery Db.saveDelivery
  simp only
  induction db.deliveries with
  | nil => simp
  | cons a l ih =>
    simp only [List.map_cons, List.find?_cons]
    by_cases hax : a.id = x.id
    · by_cases hid : id = x.id
      · simp [hax, hid]
      · have : ¬ x.id = id := fun h => hid h.symm
        simp [hax, hid, this, ih]
    · by_cases hai : a.id = id
      · have : ¬ id = x.id := fun h => hax (hai.trans h)
        simp [hax, hai, this]
      · simp [hax, hai, ih]

/-- Saving an order leaves the deliveries alone. -/
theorem findDelivery_saveOrder (db : Db) (k : Key) (o : Order) (id : Key) :
    (db.saveOrder k o).findDelivery id = db.findDelivery id := rfl

/-- The table of the status route lists exactly the edges of `advanceEdges`. -/
theorem contains_iff_advanceEdges (s t : String) :
    (∃ l, validStatusTransitions s = some l ∧ l.contains t = true) ↔ (s, t) ∈ advanceEdges := by
  unfold validStatusTransitions advanceEdges
  by_cases h1 : s = "assigned"
  · subst h1; simp
  · by_cases h2 : s = "pickup_in_progress"
    · subst h2; simp
    · by_cases h3 : s = "picked_up"
      · subst h3; simp
      · by_cases h4 : s = "in_transit"
        · subst h4; simp
        · simp [h1, h2, h3, h4]

/-- The status route on an accepted request: the advanced row is saved, and on
`delivered` the parent order is looked up and updated. -/
theorem advanceStatus_accepted (db : Db) (now : ℕ) (userId id : Key) (status : String)
    (loc : Option GeoPoint) (d : Delivery) (hd : db.findDelivery id = some d)
    (hr : d.riderId = some userId) (he : (d.status, status) ∈ advanceEdges) :
    advanceStatus db now userId id status loc =
      if status = "delivered" then
        match db.orders d.orderId with
        | none => (serverError, db.saveDelivery (advancedRow d now status loc))
        | some order =>
          (⟨200, Body.delivery (advancedRow d now status loc)⟩,
            (db.saveDelivery (advancedRow d now status loc)).saveOrder d.orderId
              { order with status := "delivered" })
      else
        (⟨200, Body.delivery (advancedRow d now status loc)⟩,
          db.saveDelivery (advancedRow d now status loc)) := by
  obtain ⟨l, hl, hc⟩ := (contains_iff_advanceEdges d.status status).mpr he
  have hr2 : ¬ d.riderId ≠ some userId := fun hn => hn hr
  simp only [advanceStatus, hd, hl, hc, if_neg hr2, Bool.not_true, Bool.false_eq_true,
    if_false]
  rfl

/-- The status route on a refused request for a stored delivery: 401 for a
caller who is not the assigned rider, 400 for a transition outside the table,
and the database as it was. -/
theorem advanceStatus_rejected (db : Db) (now : ℕ) (userId id : Key) (status : String)
    (loc : Option GeoPoint) (d : Delivery) (hd : db.findDelivery id = some d)
    (h : ¬ (d.riderId = some userId ∧ (d.status, status) ∈ advanceEdges)) :
    (advanceStatus db now userId id status loc).2 = db ∧
      ((d.riderId ≠ some userId ∧
          advanceStatus db now userId id status loc = (⟨401, Body.msg "Not authorized"⟩, db)) ∨
        (d.riderId = some userId ∧
          advanceStatus db now userId id status loc =
            (⟨400, Body.msg "Invalid status transition"⟩, db))) := by
  by_cases hr : d.riderId = some userId
  · have he : (d.status, status) ∉ advanceEdges := fun he => h ⟨hr, he⟩
    have hno : ¬ ∃ l, validStatusTransitions d.status = some l ∧ l.contains status = true :=
      fun hex => he ((contains_iff_advanceEdges d.status status).mp hex)
    have heq : advanceStatus db now userId id status loc =
        (⟨400, Body.msg "Invalid status transition"⟩, db) := by
      have hr2 : ¬ d.riderId ≠ some userId := fun hn => hn hr
      cases hv : validStatusTransitions d.status with
      | none => simp only [advanceStatus, hd, if_neg hr2, hv]
      | some l =>
        have hc : l.contains status = false := by
          cases hcs : l.contains status with
          | false => rfl
          | true => exact absurd ⟨l, hv, hcs⟩ hno
        simp only [advanceStatus, hd, if_neg hr2, hv, hc, Bool.not_false, if_true]
    exact ⟨by rw [heq], Or.inr ⟨hr, heq⟩⟩
  · have heq : advanceStatus db now userId id status loc =
        (⟨401, Body.msg "Not authorized"⟩, db) := by
      unfold advanceStatus
      simp [hd, hr]
    exact ⟨by rw [heq], Or.inl ⟨hr, heq⟩⟩

/-- The status route on a key that is not stored: 404 and the database as it
was. -/
theorem advanceStatus_missing (db : Db) (now : ℕ) (userId id : Key) (status : String)
    (loc : Option GeoPoint) (hd : db.findDelivery id = none) :
    advanceStatus db now userId id status loc = (⟨404, Body.msg "Delivery not found"⟩, db) := by
  unfold advanceStatus
  simp [hd]

/-- C13: for a stored delivery (whose parent order is stored, as the foreign key
of `orderId` requires), any caller and any requested status, the status route
answers 200 if and only if the caller is the assigned rider of the delivery and
the requested status is a listed successor of the current one; in particular a
request `assigned -> picked_up` is refused and a request
`pickup_in_progress -> picked_up` of the assigned rider succeeds. -/
theorem advanceStatus_succeeds_iff (db : Db) (now : ℕ) (userId id : Key) (status : String)
    (loc : Option GeoPoint) (d : Delivery) (hd : db.findDelivery id = some d)
    (ho : db.orders d.orderId ≠ none) :
    ((advanceStatus db now userId id status loc).1.status = 200 ↔
      (d.riderId = some userId ∧ (d.status, status) ∈ advanceEdges)) ∧
    (d.status = "assigned" → status = "picked_up" →
      (advanceStatus db now userId id status loc).1.status ≠ 200) ∧
    (d.riderId = some userId → d.status = "pickup_in_progress" → status = "picked_up" →
      (advanceStatus db now userId id status loc).1.status = 200) := by
  have hiff : (advanceStatus db now userId id status loc).1.status = 200 ↔
      (d.riderId = some userId ∧ (d.status, status) ∈ advanceEdges) := by
    constructor
    · intro h200
      by_contra hn
      rcases (advanceStatus_rejected db now userId id status loc d hd hn).2 with
        ⟨_, heq⟩ | ⟨_, heq⟩ <;> rw [heq] at h200 <;> simp at h200
    · rintro ⟨hr, he⟩
      rw [advanceStatus_accepted db now userId id status loc d hd hr he]
      cases hord : db.orders d.orderId with
      | none => exact absurd hord ho
      | some order => split_ifs <;> rfl
  refine ⟨hiff, ?_, ?_⟩
  · intro hs ht h200
    have := (hiff.mp h200).2
    rw [hs, ht] at this
    simp [advanceEdges] at this
  · intro hr hs ht
    apply hiff.mpr
    refine ⟨hr, ?_⟩
    rw [hs, ht]
    simp [advanceEdges]

/-- Witness for C13: rider 2 moves the delivery of `sampleDb` from
`pickup_in_progress` to `picked_up`. -/
theorem advanceStatus_succeeds_iff_witness :
    (sampleDb "pickup_in_progress").findDelivery 1 = some (sampleDelivery "pickup_in_progress") ∧
      (sampleDb "pickup_in_progress").orders (sampleDelivery "pickup_in_progress").orderId ≠ none ∧
      (advanceStatus (sampleDb "pickup_in_progress") 1000 2 1 "picked_up" none).1.status = 200 :=
  ⟨rfl, by simp [sampleDb, sampleDelivery],
    (advanceStatus_succeeds_iff (sampleDb "pickup_in_progress") 1000 2 1 "picked_up" none
      (sampleDelivery "pickup_in_progress") rfl (by simp [sampleDb, sampleDelivery])).2.2
      rfl rfl rfl⟩

/-- The advanced row carries the requested status. -/
theorem advancedRow_status (d : Delivery) (now : ℕ) (status : String) (loc : Option GeoPoint) :
    (advancedRow d now status loc).status = status := by
  unfold advancedRow
  cases loc <;> simp only <;> split_ifs <;> rfl

/-- The advanced row keeps the key of the delivery. -/
theorem advancedRow_id (d : Delivery) (now : ℕ) (status : String) (loc : Option GeoPoint) :
    (advancedRow d now status loc).id = d.id := by
  unfold advancedRow
  cases loc <;> simp only <;> split_ifs <;> rfl

/-- The advanced row has the pickup date stamped exactly on `picked_up`. -/
theorem advancedRow_pickupDate (d : Delivery) (now : ℕ) (status : String)
    (loc : Option GeoPoint) :
    (advancedRow d now status loc).pickupDate =
      if status = "picked_up" then some now else d.pickupDate := by
  unfold advancedRow
  cases loc <;> simp only <;> split_ifs <;> rfl

/-- The advanced row has the delivery date stamped exactly on `delivered`. -/
theorem advancedRow_deliveryDate (d : Delivery) (now : ℕ) (status : String)
    (loc : Option GeoPoint) :
    (advancedRow d now status loc).deliveryDate =
      if status = "delivered" then some now else d.deliveryDate := by
  unfold advancedRow
  cases loc <;> simp only <;> split_ifs <;> simp_all

/-- The deliveries after an accepted status request are those of the database
with the advanced row saved. -/
theorem advanceStatus_accepted_find (db : Db) (now : ℕ) (userId id : Key) (status : String)
    (loc : Option GeoPoint) (d : Delivery) (hd : db.findDelivery id = some d)
    (hr : d.riderId = some userId) (he : (d.status, status) ∈ advanceEdges) (k : Key) :
    (advanceStatus db now userId id status loc).2.findDelivery k =
      (db.saveDelivery (advancedRow d now status loc)).findDelivery k := by
  rw [advanceStatus_accepted db now userId id status loc d hd hr he]
  split_ifs
  · cases db.orders d.orderId <;> rfl
  · rfl

/-- A stored delivery after a status request: unchanged, or the advanced row of
an accepted request for its key. -/
theorem advanceStatus_find (db : Db) (now : ℕ) (userId id : Key) (status : String)
    (loc : Option GeoPoint) (k : Key) (d d2 : Delivery) (hd : db.findDelivery k = some d)
    (hd2 : (advanceStatus db now userId id status loc).2.findDelivery k = some d2) :
    d2 = d ∨ (k = id ∧ d.riderId = some userId ∧ (d.status, status) ∈ advanceEdges ∧
      d2 = advancedRow d now status loc) := by
  cases hf : db.findDelivery id with
  | none =>
    rw [advanceStatus_missing db now userId id status loc hf, hd] at hd2
    exact Or.inl (Option.some.inj hd2).symm
  | some d0 =>
    by_cases hacc : d0.riderId = some userId ∧ (d0.status, status) ∈ advanceEdges
    · rw [advanceStatus_accepted_find db now userId id status loc d0 hf hacc.1 hacc.2,
        findDelivery_saveDelivery, advancedRow_id] at hd2
      have hid0 : d0.id = id := findDelivery_id db id d0 hf
      by_cases hk : k = d0.id
      · rw [if_pos hk, hd] at hd2
        have hkid : k = id := hk.trans hid0
        have hdd : d = d0 := by
          rw [hkid, hf] at hd
          exact (Option.some.inj hd).symm
        right
        rw [hdd]
        exact ⟨hkid, hacc.1, hacc.2, (Option.some.inj hd2).symm⟩
      · rw [if_neg hk, hd] at hd2
        exact Or.inl (Option.some.inj hd2).symm
    · rw [(advanceStatus_rejected db now userId id status loc d0 hf hacc).1, hd] at hd2
      exact Or.inl (Option.some.inj hd2).symm

/-- A stored delivery is still stored, unchanged, after a create request. -/
theorem create_find (db : Db) (userId : Key) (uuid : String) (body : CreateBody) (k : Key)
    (d : Delivery) (hd : db.findDelivery k = some d) :
    (create db userId uuid body).2.findDelivery k = some d := by
  have happ : ∀ x : Delivery, ∀ kk : Key, ∀ o : Order,
      (Db.saveOrder { db with deliveries := db.deliveries ++ [x] } kk o).findDelivery k =
        some d := by
    intro x kk o
    unfold Db.findDelivery at hd
    simp [Db.findDelivery, Db.saveOrder, List.find?_append, hd]
  simp only [create]
  repeat' split
  all_goals first | exact hd | exact happ _ _ _

/-- A stored delivery after an assignment: unchanged or set to `assigned`. -/
theorem assignRider_find (db : Db) (userId id : Key) (riderId : Option Key) (k : Key)
    (d d2 : Delivery) (hd : db.findDelivery k = some d)
    (hd2 : (assignRider db userId id riderId).2.findDelivery k = some d2) :
    d2 = d ∨ d2.status = "assigned" := by
  unfold assignRider at hd2
  split at hd2
  · rw [hd] at hd2; exact Or.inl (Option.some.inj hd2).symm
  · split_ifs at hd2
    · rw [hd] at hd2; exact Or.inl (Option.some.inj hd2).symm
    · split at hd2
      · split_ifs at hd2
        · rw [hd] at hd2; exact Or.inl (Option.some.inj hd2).symm
        · split at hd2
          · rw [hd] at hd2; exact Or.inl (Option.some.inj hd2).symm
          · simp only at hd2
            rw [findDelivery_saveDelivery] at hd2
            split_ifs at hd2
            · rw [hd] at hd2
              right
              rw [← Option.some.inj hd2]
            · rw [hd] at hd2; exact Or.inl (Option.some.inj hd2).symm
      · rw [hd] at hd2; exact Or.inl (Option.some.inj hd2).symm

/-- A stored delivery keeps its status through a location update. -/
theorem updateLocation_find (db : Db) (userId id : Key) (lat lng : ℚ) (k : Key)
    (d d2 : Delivery) (hd : db.findDelivery k = some d)
    (hd2 : (updateLocation db userId id lat lng).2.findDelivery k = some d2) :
    d2.status = d.status := by
  unfold updateLocation at hd2
  split at hd2
  · rw [hd] at hd2; rw [← Option.some.inj hd2]
  · rename_i d0 hf
    split_ifs at hd2
    · rw [hd] at hd2; rw [← Option.some.inj hd2]
    · simp only at hd2
      rw [findDelivery_saveDelivery] at hd2
      have hid0 : d0.id = id := findDelivery_id db id d0 hf
      split_ifs at hd2 with hk
      · rw [hd] at hd2
        have hdd : d = d0 := by
          rw [hk.trans hid0, hf] at hd
          exact (Option.some.inj hd).symm
        rw [← Option.some.inj hd2, hdd]
      · rw [hd] at hd2; rw [← Option.some.inj hd2]

/-- C14 (code bug): an administrator assigns rider 2 to the delivered delivery
of `sampleDb "delivered"`. The assign route has no status check: it answers 200
and stores the status `assigned`, so the delivery goes from `delivered` to
`assigned`, which is not an edge of the transition table, although the table of
the status route has no successor for `delivered`. The reopened delivery then
accepts `pickup_in_progress` from its rider, the start of a fresh run. -/
theorem status_change_off_table :
    ¬ (∀ (db : Db) (req : Request) (k : Key) (d d2 : Delivery),
        db.findDelivery k = some d → (handle db req).2.findDelivery k = some d2 →
        d.status ≠ d2.status → (d.status, d2.status) ∈ transitionEdges) ∧
      (sampleDb "delivered").findDelivery 1 = some (sampleDelivery "delivered") ∧
      (assignRider (sampleDb "delivered") 1 1 (some 2)).1.status = 200 ∧
      (assignRider (sampleDb "delivered") 1 1 (some 2)).2.findDelivery 1 =
        some { sampleDelivery "delivered" with status := "assigned" } ∧
      ("delivered", "assigned") ∉ transitionEdges ∧
      validStatusTransitions "delivered" = none ∧
      (advanceStatus (assignRider (sampleDb "delivered") 1 1 (some 2)).2 1000 2 1
        "pickup_in_progress" none).1.status = 200 := by
  refine ⟨?_, rfl, rfl, rfl, by decide, rfl, rfl⟩
  intro h
  have h1 := h (sampleDb "delivered") (Request.assignRider 1 1 (some 2)) 1
    (sampleDelivery "delivered") { sampleDelivery "delivered" with status := "assigned" }
    rfl rfl (by decide)
  simp [transitionEdges, sampleDelivery] at h1

/-- The routes other than the assignment keep to the table: across create,
advanceStatus and updateLocation, whenever the status of a stored delivery
changes from `s` to `s2` the pair is an edge of the transition table, and a
delivered or failed delivery keeps its status. A status change made by
assignRider ends in `assigned`. -/
theorem status_change_along_edges (db : Db) (req : Request) (k : Key) (d d2 : Delivery)
    (hd : db.findDelivery k = some d) (hd2 : (handle db req).2.findDelivery k = some d2) :
    (isAssign req = false →
      (d.status ≠ d2.status → (d.status, d2.status) ∈ transitionEdges) ∧
      ((d.status = "delivered" ∨ d.status = "failed") → d2.status = d.status)) ∧
    (isAssign req = true → d.status ≠ d2.status → d2.status = "assigned") := by
  cases req with
  | create userId uuid body =>
    have h := create_find db userId uuid body k d hd
    have hdd : d2 = d := by
      simp only [handle] at hd2
      rw [h] at hd2
      exact (Option.some.inj hd2).symm
    subst hdd
    exact ⟨fun _ => ⟨fun hne => absurd rfl hne, fun _ => rfl⟩, fun _ hne => absurd rfl hne⟩
  | assignRider userId id riderId =>
    refine ⟨fun hf => by simp [isAssign] at hf, fun _ hne => ?_⟩
    rcases assignRider_find db userId id riderId k d d2 hd hd2 with h | h
    · exact absurd (by rw [h]) hne
    · exact h
  | advanceStatus now userId id status loc =>
    refine ⟨fun _ => ?_, fun hf => by simp [isAssign] at hf⟩
    rcases advanceStatus_find db now userId id status loc k d d2 hd hd2 with h | ⟨_, _, he, h⟩
    · subst h
      exact ⟨fun hne => absurd rfl hne, fun _ => rfl⟩
    · have hs : d2.status = status := by rw [h, advancedRow_status]
      rw [hs]
      constructor
      · intro _
        simp only [advanceEdges, List.mem_cons, Prod.mk.injEq, List.mem_singleton,
          List.not_mem_nil, or_false] at he
        simp only [transitionEdges, List.mem_cons, Prod.mk.injEq, List.mem_singleton,
          List.not_mem_nil, or_false]
        exact Or.inr he
      · intro hterm
        rcases hterm with ht | ht <;> rw [ht] at he <;> simp [advanceEdges] at he
  | updateLocation userId id lat lng =>
    have h := updateLocation_find db userId id lat lng k d d2 hd hd2
    exact ⟨fun _ => ⟨fun hne => absurd h.symm hne, fun _ => h⟩, fun _ hne => absurd h.symm hne⟩

/-- An instance: rider 2 moves the delivery of `sampleDb "in_transit"` from
`in_transit` to `delivered`, an edge of the table. -/
theorem status_change_along_edges_witness :
    (sampleDb "in_transit").findDelivery 1 = some (sampleDelivery "in_transit") ∧
      (handle (sampleDb "in_transit")
        (Request.advanceStatus 1000 2 1 "delivered" none)).2.findDelivery 1 =
        some (advancedRow (sampleDelivery "in_transit") 1000 "delivered" none) ∧
      ((sampleDelivery "in_transit").status, "delivered") ∈ transitionEdges :=
  have hd2 : (handle (sampleDb "in_transit")
      (Request.advanceStatus 1000 2 1 "delivered" none)).2.findDelivery 1 =
      some (advancedRow (sampleDelivery "in_transit") 1000 "delivered" none) := rfl
  ⟨rfl, hd2,
    ((status_change_along_edges (sampleDb "in_transit")
      (Request.advanceStatus 1000 2 1 "delivered" none) 1 (sampleDelivery "in_transit")
      (advancedRow (sampleDelivery "in_transit") 1000 "delivered" none) rfl hd2).1 rfl).1
      (by decide)⟩

/-- A status request answered 200 was an accepted request for a stored
delivery. -/
theorem advanceStatus_ok_inv (db : Db) (now : ℕ) (userId id : Key) (status : String)
    (loc : Option GeoPoint) (h200 : (advanceStatus db now userId id status loc).1.status = 200) :
    ∃ d, db.findDelivery id = some d ∧ d.riderId = some userId ∧
      (d.status, status) ∈ advanceEdges := by
  cases hf : db.findDelivery id with
  | none =>
    rw [advanceStatus_missing db now userId id status loc hf] at h200
    simp at h200
  | some d =>
    by_cases hacc : d.riderId = some userId ∧ (d.status, status) ∈ advanceEdges
    · exact ⟨d, rfl, hacc.1, hacc.2⟩
    · rcases (advanceStatus_rejected db now userId id status loc d hf hacc).2 with
        ⟨_, heq⟩ | ⟨_, heq⟩ <;> rw [heq] at h200 <;> simp at h200

/-- C15: after a status request answered 200 the delivery returned is the
stored one, its `pickupDate` is the current time if the new status is
`picked_up` and the previous value otherwise, and its `deliveryDate` is the
current time if the new status is `delivered` and the previous value
otherwise. -/
theorem advanceStatus_timestamps (db : Db) (now : ℕ) (userId id : Key) (status : String)
    (loc : Option GeoPoint) (h200 : (advanceStatus db now userId id status loc).1.status = 200) :
    ∃ d d2, db.findDelivery id = some d ∧
      (advanceStatus db now userId id status loc).2.findDelivery id = some d2 ∧
      (advanceStatus db now userId id status loc).1.body = Body.delivery d2 ∧
      d2.pickupDate = (if status = "picked_up" then some now else d.pickupDate) ∧
      d2.deliveryDate = (if status = "delivered" then some now else d.deliveryDate) := by
  obtain ⟨d, hd, hr, he⟩ := advanceStatus_ok_inv db now userId id status loc h200
  refine ⟨d, advancedRow d now status loc, hd, ?_, ?_, advancedRow_pickupDate d now status loc,
    advancedRow_deliveryDate d now status loc⟩
  · rw [advanceStatus_accepted_find db now userId id status loc d hd hr he,
      findDelivery_saveDelivery, advancedRow_id, if_pos (findDelivery_id db id d hd).symm, hd]
    rfl
  · rw [advanceStatus_accepted db now userId id status loc d hd hr he] at h200 ⊢
    split_ifs at h200 ⊢
    · cases hord : db.orders d.orderId with
      | none => rw [hord] at h200; simp [serverError] at h200
      | some order => rfl
    · rfl

/-- Witness for C15: rider 2 picks up the delivery of `sampleDb` at instant
1000. -/
theorem advanceStatus_timestamps_witness :
    (advanceStatus (sampleDb "pickup_in_progress") 1000 2 1 "picked_up" none).1.status = 200 ∧
    ∃ d d2, (sampleDb "pickup_in_progress").findDelivery 1 = some d ∧
      (advanceStatus (sampleDb "pickup_in_progress") 1000 2 1 "picked_up" none).2.findDelivery 1 =
        some d2 ∧
      (advanceStatus (sampleDb "pickup_in_progress") 1000 2 1 "picked_up" none).1.body =
        Body.delivery d2 ∧
      d2.pickupDate = (if "picked_up" = "picked_up" then some 1000 else d.pickupDate) ∧
      d2.deliveryDate = (if "picked_up" = "delivered" then some 1000 else d.deliveryDate) :=
  ⟨rfl, advanceStatus_timestamps (sampleDb "pickup_in_progress") 1000 2 1 "picked_up" none rfl⟩

/-- C16: a status request to `delivered` answered 200 sets the status of the
parent order to `delivered` (and nothing else in the orders); a request to any
other status answered 200 leaves all orders as they were. -/
theorem advanceStatus_order_status (db : Db) (now : ℕ) (userId id : Key) (status : String)
    (loc : Option GeoPoint) (h200 : (advanceStatus db now userId id status loc).1.status = 200) :
    (status = "delivered" → ∃ d order, db.findDelivery id = some d ∧
      db.orders d.orderId = some order ∧
      (advanceStatus db now userId id status loc).2.orders = fun k =>
        if k = d.orderId then some { order with status := "delivered" } else db.orders k) ∧
    (status ≠ "delivered" → (advanceStatus db now userId id status loc).2.orders = db.orders) := by
  obtain ⟨d, hd, hr, he⟩ := advanceStatus_ok_inv db now userId id status loc h200
  rw [advanceStatus_accepted db now userId id status loc d hd hr he] at h200 ⊢
  constructor
  · intro hs
    rw [if_pos hs] at h200 ⊢
    cases hord : db.orders d.orderId with
    | none => rw [hord] at h200; simp [serverError] at h200
    | some order => exact ⟨d, order, hd, hord, rfl⟩
  · intro hs
    rw [if_neg hs]
    rfl

/-- Witness for C16: rider 2 delivers the delivery of `sampleDb`; order 7 is
then `delivered`. -/
theorem advanceStatus_order_status_witness :
    (advanceStatus (sampleDb "in_transit") 1000 2 1 "delivered" none).1.status = 200 ∧
      ((advanceStatus (sampleDb "in_transit") 1000 2 1 "delivered" none).2.orders 7).map
        (fun o => o.status) = some "delivered" :=
  have h200 : (advanceStatus (sampleDb "in_transit") 1000 2 1 "delivered" none).1.status = 200 :=
    rfl
  ⟨h200, by
    obtain ⟨d, order, hd, hord, ho⟩ :=
      (advanceStatus_order_status (sampleDb "in_transit") 1000 2 1 "delivered" none h200).1 rfl
    have hd7 : d.orderId = 7 := by
      have : some (sampleDelivery "in_transit") = some d := hd
      rw [← Option.some.inj this]
      rfl
    rw [ho, hd7]
    simp⟩

/-- C17: a status request that is refused because the delivery is not stored,
the caller is not the assigned rider, or the transition is not in the table, is
answered 404, 401 or 400 and leaves the whole database as it was (status,
dates and location of every delivery, every order), also when a location is
supplied. -/
theorem advanceStatus_rejected_unchanged (db : Db) (now : ℕ) (userId id : Key)
    (status : String) (loc : Option GeoPoint)
    (h : db.findDelivery id = none ∨ ∃ d, db.findDelivery id = some d ∧
      (d.riderId ≠ some userId ∨ (d.status, status) ∉ advanceEdges)) :
    (advanceStatus db now userId id status loc).2 = db ∧
      (advanceStatus db now userId id status loc).1.status ∈ [404, 401, 400] := by
  rcases h with hf | ⟨d, hd, hno⟩
  · rw [advanceStatus_missing db now userId id status loc hf]
    exact ⟨rfl, by simp⟩
  · have hn : ¬ (d.riderId = some userId ∧ (d.status, status) ∈ advanceEdges) := by
      rintro ⟨hr, he⟩
      rcases hno with h1 | h1
      · exact h1 hr
      · exact h1 he
    obtain ⟨hdb, hresp⟩ := advanceStatus_rejected db now userId id status loc d hd hn
    refine ⟨hdb, ?_⟩
    rcases hresp with ⟨_, heq⟩ | ⟨_, heq⟩ <;> rw [heq] <;> simp

/-- Witness for C17: rider 2 asks for `assigned -> picked_up` and supplies a
location; nothing is stored. -/
theorem advanceStatus_rejected_unchanged_witness :
    (∃ d, (sampleDb "assigned").findDelivery 1 = some d ∧
      (d.riderId ≠ some 2 ∨ (d.status, "picked_up") ∉ advanceEdges)) ∧
    (advanceStatus (sampleDb "assigned") 1000 2 1 "picked_up" (some ⟨"Point", [3, 6]⟩)).2 =
      sampleDb "assigned" ∧
    (advanceStatus (sampleDb "assigned") 1000 2 1 "picked_up"
      (some ⟨"Point", [3, 6]⟩)).1.status ∈ [404, 401, 400] :=
  have hex : ∃ d, (sampleDb "assigned").findDelivery 1 = some d ∧
      (d.riderId ≠ some 2 ∨ (d.status, "picked_up") ∉ advanceEdges) :=
    ⟨sampleDelivery "assigned", rfl, Or.inr (by simp [advanceEdges, sampleDelivery])⟩
  ⟨hex, advanceStatus_rejected_unchanged (sampleDb "assigned") 1000 2 1 "picked_up"
    (some ⟨"Point", [3, 6]⟩) (Or.inr hex)⟩

/-! ## Tracking code and public lookup -/

/-- A lower-case hexadecimal digit in upper case is a digit or an upper-case
letter. -/
theorem hex_toUpper (c : Char) (h : c ∈ hexDigits) :
    c.toUpper.isDigit = true ∨ c.toUpper.isUpper = true := by
  have hall : ∀ x ∈ hexDigits, x.toUpper.isDigit = true ∨ x.toUpper.isUpper = true := by
    decide
  exact hall c h

/-- C18: for every identifier in canonical UUID v4 text form, the tracking code
(its first 8 characters in upper case) has length 8 and consists of digits and
upper-case letters only. -/
theorem trackingCodeOf_format (uuid : String) (h : isUuidV4 uuid = true) :
    (trackingCodeOf uuid).length = 8 ∧
      ∀ c ∈ (trackingCodeOf uuid).toList, c.isDigit = true ∨ c.isUpper = true := by
  unfold isUuidV4 at h
  simp only [Bool.and_eq_true, beq_iff_eq, List.all_eq_true] at h
  obtain ⟨hlen, hall⟩ := h
  have hcode : (trackingCodeOf uuid).toList = (uuid.toList.take 8).map Char.toUpper := by
    simp [trackingCodeOf, toUpperCase, substring]
  constructor
  · have : (trackingCodeOf uuid).length = (trackingCodeOf uuid).toList.length := rfl
    rw [this, hcode, List.length_map, List.length_take, hlen]
    rfl
  · intro c hc
    rw [hcode] at hc
    obtain ⟨a, ha, rfl⟩ := List.mem_map.mp hc
    obtain ⟨i, hi, rfl⟩ := List.mem_take_iff_getElem.mp ha
    have hi8 : i < 8 := lt_of_lt_of_le hi (min_le_left _ _)
    have hil : i < uuid.toList.length := lt_of_lt_of_le hi (min_le_right _ _)
    have hmem : (i, uuid.toList[i]) ∈ uuid.toList.enum := by
      rw [List.mk_mem_enum_iff_getElem?]
      exact List.getElem?_eq_getElem hil
    have hp := hall (i, uuid.toList[i]) hmem
    have h1 : ¬ (i = 8 ∨ i = 13 ∨ i = 18 ∨ i = 23) := by omega
    have h2 : ¬ i = 14 := by omega
    have h3 : ¬ i = 19 := by omega
    simp only [h1, h2, h3, if_false] at hp
    have hmemhex : uuid.toList[i] ∈ hexDigits := by simpa using hp
    exact hex_toUpper _ hmemhex

/-- Witness for C18: the code of `3f2a9c1e-7b4d-4e8a-9c3b-5d6e7f8a9b0c`. -/
theorem trackingCodeOf_format_witness :
    isUuidV4 "3f2a9c1e-7b4d-4e8a-9c3b-5d6e7f8a9b0c" = true ∧
      (trackingCodeOf "3f2a9c1e-7b4d-4e8a-9c3b-5d6e7f8a9b0c").length = 8 ∧
      ∀ c ∈ (trackingCodeOf "3f2a9c1e-7b4d-4e8a-9c3b-5d6e7f8a9b0c").toList,
        c.isDigit = true ∨ c.isUpper = true :=
  ⟨by decide, trackingCodeOf_format "3f2a9c1e-7b4d-4e8a-9c3b-5d6e7f8a9b0c" (by decide)⟩

/-- The query of the public lookup cannot load its include: `Order` is not
associated to `Delivery`, and `orderNumber` is no attribute of `Order`. -/
theorem tracking_include_fails :
    associations.contains ("Delivery", "Order") = false ∧
      orderAttributes.contains "orderNumber" = false ∧
      includeLoads "Delivery" "Order" ["id", "orderNumber", "status"] orderAttributes = false := by
  decide

/-- C19 (code bug): the public lookup answers 500 `Server Error` for every
database and every code, stored or not: its query includes `Order`, which no
model associates with `Delivery`, and selects `orderNumber`, which `Order` does
not have, so the query throws before a delivery is looked at. The route never
answers 404 `Delivery not found` and never sends the reduced view. -/
theorem trackByCode_server_error (db : Db) (code : String) :
    trackByCode db code = serverError ∧
      trackByCode db code ≠ ⟨404, Body.msg "Delivery not found"⟩ ∧
      (trackByCode db code).status ≠ 200 := by
  have h : trackByCode db code = serverError := by
    unfold trackByCode
    rw [tracking_include_fails.2.2]
    rfl
  rw [h]
  decide

end DeliveryRoutes

namespace PaymentRoutes
open Marketplace

/-! ## Refund -/

/-- A refund request on a payment that is neither held in escrow nor being
processed changes nothing in the database. -/
theorem refund_other_status (stripeRefund : Option String → Option Refund) (db : Db)
    (userId id : Key) (p : Payment) (hp : db.findPayment id = some p)
    (hs : p.status ≠ "held_in_escrow" ∧ p.status ≠ "processing") :
    (refund stripeRefund db userId id).2 = db := by
  simp only [refund, hp]
  repeat' split
  all_goals rfl

/-- C20 (evaluation at the failing input): user 3 is the customer of order 7,
has no tailor profile and is not an administrator; the refund of payment 1
(held in escrow) goes through: the answer is 200, the payment is `refunded` and
the order is `cancelled`. -/
theorem refund_by_customer :
    escrowDb.users 3 = some ⟨"customer"⟩ ∧
      escrowDb.tailors.find? (fun t => decide (t.userId = 3)) = none ∧
      (refund gatewayOk escrowDb 3 1).1.status = 200 ∧
      ((refund gatewayOk escrowDb 3 1).2.findPayment 1).map (fun p => p.status) =
        some "refunded" ∧
      ((refund gatewayOk escrowDb 3 1).2.orders 7).map (fun o => o.status) =
        some "cancelled" := by
  refine ⟨rfl, rfl, rfl, rfl, rfl⟩

end PaymentRoutes

namespace UnitConversion
open JsValue

/-! ## Size-chart suggestions -/

/-- Each of the four units has a positive numeric conversion factor. -/
theorem factor_pos_of_unit (u : String) (hu : u ∈ UNITS) :
    ∃ f : ℚ, 0 < f ∧ CONVERSION_FACTORS u = num f := by
  simp only [UNITS, List.mem_cons, List.mem_singleton, List.not_mem_nil, or_false] at hu
  rcases hu with rfl | rfl | rfl | rfl
  · exact ⟨1, by norm_num, by simp [CONVERSION_FACTORS]⟩
  · exact ⟨0.393701, by norm_num, by simp [CONVERSION_FACTORS, INCHES, CENTIMETERS]⟩
  · exact ⟨12, by norm_num, by simp [CONVERSION_FACTORS, INCHES, CENTIMETERS, FEET]⟩
  · exact ⟨39.3701, by norm_num,
      by simp [CONVERSION_FACTORS, INCHES, CENTIMETERS, FEET, METERS]⟩

/-- A positive number whose conversion to inches is `v` is valid for a field
with a table entry exactly when `v` lies in the closed range of the entry. -/
theorem validateMeasurement_of_inInches (t u : String) (r : Range) (s v : ℚ)
    (ht : validationRanges t = some r) (hs : 0 < s)
    (hconv : convertUnit (num s) u INCHES = num v) :
    (validateMeasurement (num s) t u).isValid = true ↔ (r.min : ℚ) ≤ v ∧ v ≤ (r.max : ℚ) := by
  have hs0 : s ≠ 0 := ne_of_gt hs
  simp only [validateMeasurement, isNaN, truthy, toNumber, parseFloat, JsValue.le, hconv,
    ht, JsValue.lt, JsValue.gt]
  simp [hs0, not_le.mpr hs]
  by_cases h1 : v < (r.min : ℚ)
  · simp [h1]
  · by_cases h2 : (r.max : ℚ) < v
    · simp [h1, h2]
    · simp [h1, h2, not_lt.mp h1, not_lt.mp h2]

/-- Conversion of a number between a unit and itself returns the number. -/
theorem convertUnit_same_unit (v : ℚ) (u : String) : convertUnit (num v) u u = num v := by
  by_cases hv : v = 0
  · simp [convertUnit, isNaN, truthy, toNumber, hv]
  · simp [convertUnit, isNaN, truthy, toNumber, hv]

/-- A chart value converted from inches to a unit and checked in that unit is
checked against the table as the chart value itself. -/
theorem validateMeasurement_suggestion (t u : String) (r : Range) (v : ℕ) (hv : 0 < v)
    (hu : u ∈ UNITS) (ht : validationRanges t = some r) (hlo : r.min ≤ v) (hhi : v ≤ r.max) :
    ∃ s, convertUnit (num v) INCHES u = num s ∧
      (validateMeasurement (num s) t u).isValid = true := by
  have hvq : (0 : ℚ) < (v : ℚ) := by exact_mod_cast hv
  have hrange : (r.min : ℚ) ≤ (v : ℚ) ∧ (v : ℚ) ≤ (r.max : ℚ) :=
    ⟨by exact_mod_cast hlo, by exact_mod_cast hhi⟩
  by_cases hui : INCHES = u
  · subst hui
    refine ⟨v, convertUnit_same_unit v INCHES, ?_⟩
    exact (validateMeasurement_of_inInches t INCHES r v v ht hvq
      (convertUnit_same_unit v INCHES)).mpr hrange
  · obtain ⟨f, hf, hfu⟩ := factor_pos_of_unit u hu
    have h1 : CONVERSION_FACTORS INCHES = num 1 := by simp [CONVERSION_FACTORS]
    have hs : (0 : ℚ) < (v : ℚ) / 1 * f := by positivity
    refine ⟨(v : ℚ) / 1 * f,
      convertUnit_of_factors v 1 f INCHES u (ne_of_gt hvq) hui (by norm_num) h1 hfu, ?_⟩
    have hback : convertUnit (num ((v : ℚ) / 1 * f)) u INCHES = num (v : ℚ) := by
      rw [convertUnit_of_factors ((v : ℚ) / 1 * f) f 1 u INCHES (ne_of_gt hs)
        (fun h => hui h.symm) (ne_of_gt hf) hfu h1]
      congr 1
      field_simp
    exact (validateMeasurement_of_inInches t u r _ v ht hs hback).mpr hrange

/-- C30: for every size of the chart, every field among bust, waist and hip and
every unit among inches, cm, feet and meters, `getMeasurementSuggestion`
returns a value (not `null`) and `validateMeasurement` accepts that value for
the same field and unit (exact rational arithmetic). -/
theorem suggestion_is_valid (field size u : String)
    (hsize : size ∈ ["XS", "S", "M", "L", "XL", "XXL"])
    (hfield : field ∈ ["bust", "waist", "hip"]) (hu : u ∈ UNITS) :
    ∃ s, getMeasurementSuggestion field size u = some s ∧
      (validateMeasurement s field u).isValid = true := by
  simp only [List.mem_cons, List.mem_singleton, List.not_mem_nil, or_false] at hsize hfield
  have key : ∀ (r : Range) (v : ℕ), 0 < v → validationRanges field = some r → r.min ≤ v →
      v ≤ r.max → getMeasurementSuggestion field size u = some (convertUnit (num v) INCHES u) →
      ∃ s, getMeasurementSuggestion field size u = some s ∧
        (validateMeasurement s field u).isValid = true := by
    intro r v hv ht hlo hhi hget
    obtain ⟨s, hs, hval⟩ := validateMeasurement_suggestion field u r v hv hu ht hlo hhi
    exact ⟨num s, by rw [hget, hs], hval⟩
  rcases hsize with rfl | rfl | rfl | rfl | rfl | rfl <;>
    rcases hfield with rfl | rfl | rfl
  · exact key ⟨20, 60⟩ 32 (by decide) (by simp [validationRanges]) (by decide) (by decide)
      (by simp [getMeasurementSuggestion, suggestions, sizeEntry])
  · exact key ⟨20, 60⟩ 24 (by decide) (by simp [validationRanges]) (by decide) (by decide)
      (by simp [getMeasurementSuggestion, suggestions, sizeEntry])
  · exact key ⟨25, 65⟩ 34 (by decide) (by simp [validationRanges]) (by decide) (by decide)
      (by simp [getMeasurementSuggestion, suggestions, sizeEntry])
  · exact key ⟨20, 60⟩ 34 (by decide) (by simp [validationRanges]) (by decide) (by decide)
      (by simp [getMeasurementSuggestion, suggestions, sizeEntry])
  · exact key ⟨20, 60⟩ 26 (by decide) (by simp [validationRanges]) (by decide) (by decide)
      (by simp [getMeasurementSuggestion, suggestions, sizeEntry])
  · exact key ⟨25, 65⟩ 36 (by decide) (by simp [validationRanges]) (by decide) (by decide)
      (by simp [getMeasurementSuggestion, suggestions, sizeEntry])
  · exact key ⟨20, 60⟩ 36 (by decide) (by simp [validationRanges]) (by decide) (by decide)
      (by simp [getMeasurementSuggestion, suggestions, sizeEntry])
  · exact key ⟨20, 60⟩ 28 (by decide) (by simp [validationRanges]) (by decide) (by decide)
      (by simp [getMeasurementSuggestion, suggestions, sizeEntry])
  · exact key ⟨25, 65⟩ 38 (by decide) (by simp [validationRanges]) (by decide) (by decide)
      (by simp [getMeasurementSuggestion, suggestions, sizeEntry])
  · exact key ⟨20, 60⟩ 38 (by decide) (by simp [validationRanges]) (by decide) (by decide)
      (by simp [getMeasurementSuggestion, suggestions, sizeEntry])
  · exact key ⟨20, 60⟩ 30 (by decide) (by simp [validationRanges]) (by decide) (by decide)
      (by simp [getMeasurementSuggestion, suggestions, sizeEntry])
  · exact key ⟨25, 65⟩ 40 (by decide) (by simp [validationRanges]) (by decide) (by decide)
      (by simp [getMeasurementSuggestion, suggestions, sizeEntry])
  · exact key ⟨20, 60⟩ 40 (by decide) (by simp [validationRanges]) (by decide) (by decide)
      (by simp [getMeasurementSuggestion, suggestions, sizeEntry])
  · exact key ⟨20, 60⟩ 32 (by decide) (by simp [validationRanges]) (by decide) (by decide)
      (by simp [getMeasurementSuggestion, suggestions, sizeEntry])
  · exact key ⟨25, 65⟩ 42 (by decide) (by simp [validationRanges]) (by decide) (by decide)
      (by simp [getMeasurementSuggestion, suggestions, sizeEntry])
  · exact key ⟨20, 60⟩ 42 (by decide) (by simp [validationRanges]) (by decide) (by decide)
      (by simp [getMeasurementSuggestion, suggestions, sizeEntry])
  · exact key ⟨20, 60⟩ 34 (by decide) (by simp [validationRanges]) (by decide) (by decide)
      (by simp [getMeasurementSuggestion, suggestions, sizeEntry])
  · exact key ⟨25, 65⟩ 44 (by decide) (by simp [validationRanges]) (by decide) (by decide)
      (by simp [getMeasurementSuggestion, suggestions, sizeEntry])

/-- Witness for C30: the waist suggestion of size M in centimetres. -/
theorem suggestion_is_valid_witness :
    "M" ∈ ["XS", "S", "M", "L", "XL", "XXL"] ∧ "waist" ∈ ["bust", "waist", "hip"] ∧
      CENTIMETERS ∈ UNITS ∧
      ∃ s, getMeasurementSuggestion "waist" "M" CENTIMETERS = some s ∧
        (validateMeasurement s "waist" CENTIMETERS).isValid = true :=
  ⟨by simp, by simp, by simp [UNITS],
    suggestion_is_valid "waist" "M" CENTIMETERS (by simp) (by simp) (by simp [UNITS])⟩

end UnitConversion

namespace PaymentRoutes
open Marketplace UnitConversion UnitConversion.JsValue

/-! ## Escrow release and amount of a payment intent -/

/-- A payment found under a key has that key. -/
theorem findPayment_id (db : Db) (id : Key) (p : Payment) (h : db.findPayment id = some p) :
    p.id = id := by
  unfold Db.findPayment at h
  have := List.find?_some h
  simpa using this

/-- Looking a key up after a payment is saved. -/
theorem findPayment_savePayment (db : Db) (x : Payment) (id : Key) :
    (db.savePayment x).findPayment id =
      if id = x.id then (db.findPayment id).map (fun _ => x) else db.findPayment id := by
  unfold Db.findPayment Db.savePayment
  simp only
  induction db.payments with
  | nil => simp
  | cons a l ih =>
    simp only [List.map_cons, List.find?_cons]
    by_cases hax : a.id = x.id
    · by_cases hid : id = x.id
      · simp [hax, hid]
      · have : ¬ x.id = id := fun h => hid h.symm
        simp [hax, hid, this, ih]
    · by_cases hai : a.id = id
      · have : ¬ id = x.id := fun h => hax (hai.trans h)
        simp [hax, hai, this]
      · simp [hax, hai, ih]

/-- The release route on a request it accepts. -/
theorem releaseEscrow_accepted (db : Db) (now : ℕ) (userId id : Key) (p : Payment) (o : Order)
    (hp : db.findPayment id = some p) (ho : db.orders p.orderId = some o)
    (hc : o.customerId = some userId ∨ ∃ u, db.users userId = some u ∧ u.role = "admin")
    (hs : p.status = "held_in_escrow") :
    releaseEscrow db now userId id =
      (⟨200, Body.payment { p with status := "released", escrowReleaseDate := some now }⟩,
        db.savePayment { p with status := "released", escrowReleaseDate := some now }) := by
  have hs2 : ¬ p.status ≠ "held_in_escrow" := fun hn => hn hs
  rcases hc with hc | ⟨u, hu, hr⟩
  · have hc2 : ¬ o.customerId ≠ some userId := fun hn => hn hc
    simp only [releaseEscrow, hp, ho, if_neg hc2, if_neg hs2]
  · by_cases hc : o.customerId = some userId
    · have hc2 : ¬ o.customerId ≠ some userId := fun hn => hn hc
      simp only [releaseEscrow, hp, ho, if_neg hc2, if_neg hs2]
    · have hc2 : o.customerId ≠ some userId := hc
      simp only [releaseEscrow, hp, ho, if_pos hc2, hu, Option.map_some', hr, ne_eq,
        not_true_eq_false, decide_False, if_neg hs2]

/-- The release route on a request it refuses: the database is as it was and
the answer is 401, 400 or 500. -/
theorem releaseEscrow_refused (db : Db) (now : ℕ) (userId id : Key) (p : Payment) (o : Order)
    (hp : db.findPayment id = some p) (ho : db.orders p.orderId = some o)
    (h : ¬ ((o.customerId = some userId ∨ ∃ u, db.users userId = some u ∧ u.role = "admin") ∧
      p.status = "held_in_escrow")) :
    (releaseEscrow db now userId id).2 = db ∧
      (releaseEscrow db now userId id).1.status ∈ [401, 400, 500] := by
  by_cases hc : o.customerId = some userId
  · have hc2 : ¬ o.customerId ≠ some userId := fun hn => hn hc
    have hs : p.status ≠ "held_in_escrow" := fun hs => h ⟨Or.inl hc, hs⟩
    simp only [releaseEscrow, hp, ho, if_neg hc2, if_pos hs]
    simp
  · have hc2 : o.customerId ≠ some userId := hc
    cases hu : db.users userId with
    | none =>
      simp only [releaseEscrow, hp, ho, if_pos hc2, hu, Option.map_none']
      simp [serverError]
    | some u =>
      by_cases hr : u.role = "admin"
      · have hs : p.status ≠ "held_in_escrow" := fun hs => h ⟨Or.inr ⟨u, hu, hr⟩, hs⟩
        simp only [releaseEscrow, hp, ho, if_pos hc2, hu, Option.map_some', hr, ne_eq,
          not_true_eq_false, decide_False, if_pos hs]
        simp
      · have hr2 : decide (u.role ≠ "admin") = true := by simpa using hr
        simp only [releaseEscrow, hp, ho, if_pos hc2, hu, Option.map_some', hr2]
        simp

/-- C21: for a stored payment whose order is stored, the release route answers
200 if and only if the caller is the customer of the order or an administrator
and the payment is held in escrow; then the payment is stored as `released`;
otherwise the database (payment and order) is as it was. The orders are never
changed. -/
theorem releaseEscrow_succeeds_iff (db : Db) (now : ℕ) (userId id : Key) (p : Payment)
    (o : Order) (hp : db.findPayment id = some p) (ho : db.orders p.orderId = some o) :
    ((releaseEscrow db now userId id).1.status = 200 ↔
      ((o.customerId = some userId ∨ ∃ u, db.users userId = some u ∧ u.role = "admin") ∧
        p.status = "held_in_escrow")) ∧
    ((releaseEscrow db now userId id).1.status = 200 →
      ((releaseEscrow db now userId id).2.findPayment id).map (fun x => x.status) =
        some "released") ∧
    ((releaseEscrow db now userId id).1.status ≠ 200 → (releaseEscrow db now userId id).2 = db) ∧
    (releaseEscrow db now userId id).2.orders = db.orders := by
  by_cases h : (o.customerId = some userId ∨ ∃ u, db.users userId = some u ∧ u.role = "admin") ∧
      p.status = "held_in_escrow"
  · have heq := releaseEscrow_accepted db now userId id p o hp ho h.1 h.2
    rw [heq]
    refine ⟨⟨fun _ => h, fun _ => rfl⟩, ?_, fun hne => absurd rfl hne, rfl⟩
    intro _
    simp only
    rw [findPayment_savePayment]
    have hid : id = p.id := (findPayment_id db id p hp).symm
    rw [if_pos hid, hp]
    rfl
  · obtain ⟨hdb, hst⟩ := releaseEscrow_refused db now userId id p o hp ho h
    have hne : (releaseEscrow db now userId id).1.status ≠ 200 := by
      intro h200
      rw [h200] at hst
      simp at hst
    exact ⟨⟨fun h200 => absurd h200 hne, fun hh => absurd hh h⟩, fun h200 => absurd h200 hne,
      fun _ => hdb, by rw [hdb]⟩

/-- Witness for C21: customer 3 releases payment 1 of `escrowDb`. -/
theorem releaseEscrow_succeeds_iff_witness :
    escrowDb.findPayment 1 = some
        { id := 1, orderId := 7, amount := 100, currency := "USD", paymentMethod := "card",
          paymentIntentId := some "pi_1", status := "held_in_escrow",
          escrowReleaseDate := none } ∧
      escrowDb.orders 7 = some ⟨some 3, some 4, "in_progress", 100⟩ ∧
      (releaseEscrow escrowDb 1000 3 1).1.status = 200 :=
  ⟨rfl, rfl,
    (releaseEscrow_succeeds_iff escrowDb 1000 3 1
      { id := 1, orderId := 7, amount := 100, currency := "USD", paymentMethod := "card",
        paymentIntentId := some "pi_1", status := "held_in_escrow", escrowReleaseDate := none }
      ⟨some 3, some 4, "in_progress", 100⟩ rfl rfl).1.mpr ⟨Or.inl rfl, rfl⟩⟩

/-- When the order is found, the caller is its customer and its total price is
not zero, the amount charged is the total price, whatever the body holds. -/
theorem resolveAmount_of_order (db : Db) (userId : Key) (body : IntentBody) (k : Key)
    (o : Order) (hk : body.orderId = some k) (ho : db.orders k = some o)
    (hc : o.customerId = some userId) (ht : o.totalPrice ≠ 0) :
    resolveAmount db userId body = Except.ok (num o.totalPrice) := by
  simp [resolveAmount, fallbackAmount, hk, ho, hc, truthy, ht]

/-- C22 (evaluation at the failing input): customer 3 asks for a payment intent
for order 7, whose total price is 0 (the value every order is created with),
and sends the amount 50: the order is found, yet the amount charged is the 50
of the body (5000 cents), not the total price. -/
theorem resolveAmount_zero_total :
    resolveAmount
        { escrowDb with orders := fun k =>
            if k = 7 then some ⟨some 3, some 4, "pending", 0⟩ else none }
        3 ⟨some 7, num 50⟩ = Except.ok (num 50) ∧
      amountInCents (num 50) = some 5000 := by
  constructor
  · simp [resolveAmount, fallbackAmount, truthy, toNumber]
  · simp [amountInCents, JsValue.mul, toNumber, MeasurementValidator.mathRound]
    norm_num

end PaymentRoutes

namespace DeliveryRoutes
open Marketplace

/-! ## Order status written by the delivery routes, and runs of the status route -/

/-- A create request answered 200 has written `pending_delivery` to the order
it names. -/
theorem create_ok_order_status (db : Db) (userId : Key) (uuid : String) (body : CreateBody)
    (h200 : (create db userId uuid body).1.status = 200) :
    ∃ k, body.orderId = some k ∧
      ((create db userId uuid body).2.orders k).map (fun o => o.status) =
        some "pending_delivery" := by
  generalize hr : create db userId uuid body = r at h200 ⊢
  simp only [create] at hr
  repeat' split at hr
  all_goals (subst hr; simp_all [serverError, Db.saveOrder])

/-- C28 (evaluation at the failing input): the administrator creates a delivery
for order 7; the route answers 200 and writes the status `pending_delivery` to
the order, which is not a name of the enumeration declared for the status of
an order (`delivered`, written by the status route, is one). -/
theorem create_writes_status_outside_enum :
    (create (sampleDb "delivered") 1 "9b1deb4d-3b7d-4bad-9bdd-2b0d7b3dcb6d"
        sampleCreateBody).1.status = 200 ∧
      ((create (sampleDb "delivered") 1 "9b1deb4d-3b7d-4bad-9bdd-2b0d7b3dcb6d"
        sampleCreateBody).2.orders 7).map (fun o => o.status) = some "pending_delivery" ∧
      "pending_delivery" ∉ orderStatuses ∧ "delivered" ∈ orderStatuses := by
  have h200 : (create (sampleDb "delivered") 1 "9b1deb4d-3b7d-4bad-9bdd-2b0d7b3dcb6d"
      sampleCreateBody).1.status = 200 := by decide
  refine ⟨h200, ?_, by decide, by decide⟩
  obtain ⟨k, hk, h⟩ := create_ok_order_status _ _ _ _ h200
  have hk7 : k = 7 := by
    have : some 7 = some k := hk
    exact (Option.some.inj this).symm
  rw [← hk7]
  exact h

/-- Every edge of the table of the status route goes up in rank, and no rank
exceeds 4. -/
theorem edge_rank (s t : String) (h : (s, t) ∈ advanceEdges) :
    statusRank s < statusRank t ∧ statusRank t ≤ 4 := by
  simp only [advanceEdges, List.mem_cons, Prod.mk.injEq, List.mem_singleton,
    List.not_mem_nil, or_false] at h
  rcases h with ⟨rfl, rfl⟩ | ⟨rfl, rfl⟩ | ⟨rfl, rfl⟩ | ⟨rfl, rfl⟩ | ⟨rfl, rfl⟩ |
    ⟨rfl, rfl⟩ | ⟨rfl, rfl⟩ <;> decide

/-- Along a run of the status route in which every request is answered 200,
the ranks of the requested statuses go up strictly from the rank of the stored
status, and the length of the run plus that rank is at most 4. -/
theorem runAdvances_ranks (id : Key) (calls : List AdvanceCall) :
    ∀ (db : Db) (d : Delivery), db.findDelivery id = some d →
      (∀ r ∈ (runAdvances db id calls).1, r.status = 200) →
      calls.length + statusRank d.status ≤ 4 ∧
        List.Pairwise (fun a b => statusRank a < statusRank b)
          (d.status :: calls.map (fun c => c.status)) := by
  induction calls with
  | nil =>
    intro db d _ _
    refine ⟨?_, by simp⟩
    simp only [List.length_nil, Nat.zero_add, statusRank]
    split_ifs <;> omega
  | cons c cs ih =>
    intro db d hd hall
    have h1 : (advanceStatus db c.now c.userId id c.status c.currentLocation).1.status = 200 :=
      hall _ (by simp [runAdvances])
    obtain ⟨d0, hd0, hr, he⟩ := advanceStatus_ok_inv db c.now c.userId id c.status
      c.currentLocation h1
    have hdd : d0 = d := by
      rw [hd] at hd0
      exact (Option.some.inj hd0).symm
    subst hdd
    have hfind : (advanceStatus db c.now c.userId id c.status c.currentLocation).2.findDelivery id
        = some (advancedRow d0 c.now c.status c.currentLocation) := by
      rw [advanceStatus_accepted_find db c.now c.userId id c.status c.currentLocation d0 hd hr he,
        findDelivery_saveDelivery, advancedRow_id, if_pos (findDelivery_id db id d0 hd).symm, hd]
      rfl
    have hrest : ∀ r ∈ (runAdvances
        (advanceStatus db c.now c.userId id c.status c.currentLocation).2 id cs).1,
        r.status = 200 := by
      intro r hr2
      exact hall r (by simp [runAdvances, hr2])
    obtain ⟨hlen, hpw⟩ := ih _ _ hfind hrest
    rw [advancedRow_status] at hlen hpw
    obtain ⟨hlt, _⟩ := edge_rank d0.status c.status he
    refine ⟨by simp only [List.length_cons]; omega, ?_⟩
    rw [List.map_cons, List.pairwise_cons]
    refine ⟨?_, hpw⟩
    intro t ht
    rcases List.mem_cons.mp ht with h | h
    · rw [h]; exact hlt
    · exact lt_trans hlt ((List.pairwise_cons.mp hpw).1 t h)

/-- C29: from every database and for every delivery, a run of consecutive
requests to the status route that are all answered 200 has at most 4 requests,
enters no status twice and never re-enters the status it started from; and a
delivery that is `delivered`, `failed` or `pending` gets no 200 from the
status route. -/
theorem advance_runs_bounded (db : Db) (id : Key) (calls : List AdvanceCall) :
    ((∀ r ∈ (runAdvances db id calls).1, r.status = 200) →
      calls.length ≤ 4 ∧ (calls.map (fun c => c.status)).Nodup ∧
        ∀ d, db.findDelivery id = some d → d.status ∉ calls.map (fun c => c.status)) ∧
    (∀ (d : Delivery) (now : ℕ) (userId : Key) (status : String) (loc : Option GeoPoint),
      db.findDelivery id = some d →
      d.status = "delivered" ∨ d.status = "failed" ∨ d.status = "pending" →
      (advanceStatus db now userId id status loc).1.status ≠ 200) := by
  constructor
  · intro hall
    cases hf : db.findDelivery id with
    | none =>
      cases calls with
      | nil => simp
      | cons c cs =>
        have h1 : (advanceStatus db c.now c.userId id c.status c.currentLocation).1.status
            = 200 := hall _ (by simp [runAdvances])
        rw [advanceStatus_missing db c.now c.userId id c.status c.currentLocation hf] at h1
        simp at h1
    | some d =>
      obtain ⟨hlen, hpw⟩ := runAdvances_ranks id calls db d hf hall
      have hnd : (d.status :: calls.map (fun c => c.status)).Nodup :=
        hpw.imp (fun h => ne_of_apply_ne statusRank (ne_of_lt h))
      refine ⟨by omega, (List.nodup_cons.mp hnd).2, ?_⟩
      intro d2 hd2
      rw [← Option.some.inj hd2]
      exact (List.nodup_cons.mp hnd).1
  · intro d now userId status loc hd hterm h200
    obtain ⟨d0, hd0, _, he⟩ := advanceStatus_ok_inv db now userId id status loc h200
    rw [hd] at hd0
    rw [← Option.some.inj hd0] at he
    rcases hterm with h | h | h <;> rw [h] at he <;> simp [advanceEdges] at he

/-- Witness for C29: the four requests of `fullRun` take the delivery of
`sampleDb` from `assigned` to `delivered`, each answered 200; the bound 4 is
reached. -/
theorem advance_runs_bounded_witness :
    (∀ r ∈ (runAdvances (sampleDb "assigned") 1 fullRun).1, r.status = 200) ∧
      fullRun.length ≤ 4 ∧ (fullRun.map (fun c => c.status)).Nodup :=
  have hall : ∀ r ∈ (runAdvances (sampleDb "assigned") 1 fullRun).1, r.status = 200 := by
    decide
  ⟨hall, ((advance_runs_bounded (sampleDb "assigned") 1 fullRun).1 hall).1,
    ((advance_runs_bounded (sampleDb "assigned") 1 fullRun).1 hall).2.1⟩

end DeliveryRoutes

namespace TailorRoutes
open Marketplace

/-! ## Distance and radius search -/

/-- The distance of a point to itself is 0, over the real numbers. -/
theorem calculateDistance_same_real (lat lon : ℝ) :
    calculateDistance
      ⟨Real.sin, Real.cos, Real.sqrt, fun y x => Complex.arg ⟨x, y⟩, Real.pi⟩
      lat lon lat lon = 0 := by
  simp [calculateDistance, toRadians, Complex.arg_eq_zero_iff]

/-- C23: for all coordinates `(lat, lon)`, `calculateDistance(lat, lon, lat,
lon) = 0`, with `Math.sin`, `Math.cos`, `Math.sqrt`, `Math.atan2` and `Math.PI`
read as the real functions and the real number pi. -/
theorem calculateDistance_self (lat lon : ℝ) :
    calculateDistance
      ⟨Real.sin, Real.cos, Real.sqrt, fun y x => Complex.arg ⟨x, y⟩, Real.pi⟩
      lat lon lat lon = 0 :=
  calculateDistance_same_real lat lon

/-- C24: for all coordinates, `calculateDistance(lat1, lon1, lat2, lon2)` equals
`calculateDistance(lat2, lon2, lat1, lon1)`, over the real functions. -/
theorem calculateDistance_symm (lat1 lon1 lat2 lon2 : ℝ) :
    calculateDistance
      ⟨Real.sin, Real.cos, Real.sqrt, fun y x => Complex.arg ⟨x, y⟩, Real.pi⟩
      lat1 lon1 lat2 lon2 =
    calculateDistance
      ⟨Real.sin, Real.cos, Real.sqrt, fun y x => Complex.arg ⟨x, y⟩, Real.pi⟩
      lat2 lon2 lat1 lon1 := by
  have h1 : (lat1 - lat2) * (Real.pi / 180) / 2 = -((lat2 - lat1) * (Real.pi / 180) / 2) := by
    ring
  have h2 : (lon1 - lon2) * (Real.pi / 180) / 2 = -((lon2 - lon1) * (Real.pi / 180) / 2) := by
    ring
  have ha : Real.sin ((lat2 - lat1) * (Real.pi / 180) / 2) *
        Real.sin ((lat2 - lat1) * (Real.pi / 180) / 2) +
      Real.cos (lat1 * (Real.pi / 180)) * Real.cos (lat2 * (Real.pi / 180)) *
        Real.sin ((lon2 - lon1) * (Real.pi / 180) / 2) *
        Real.sin ((lon2 - lon1) * (Real.pi / 180) / 2) =
      Real.sin ((lat1 - lat2) * (Real.pi / 180) / 2) *
        Real.sin ((lat1 - lat2) * (Real.pi / 180) / 2) +
      Real.cos (lat2 * (Real.pi / 180)) * Real.cos (lat1 * (Real.pi / 180)) *
        Real.sin ((lon1 - lon2) * (Real.pi / 180) / 2) *
        Real.sin ((lon1 - lon2) * (Real.pi / 180) / 2) := by
    rw [h1, h2, Real.sin_neg, Real.sin_neg]
    ring
  simp only [calculateDistance, toRadians]
  rw [ha]

/-- The filter keeps a tailor exactly when its user has a non-zero latitude and
a non-zero longitude and the distance from the origin is at most the radius;
the distance is stored with the tailor. -/
theorem filterStep_eq_some {α : Type} [LinearOrderedField α] (M : MathFns α)
    (lat lng radius : α) (t : TailorRow α) (x : Located α) :
    filterStep M lat lng radius t = some x ↔
      ∃ u la lo, t.user = some u ∧ u.latitude = some la ∧ u.longitude = some lo ∧
        la ≠ 0 ∧ lo ≠ 0 ∧ calculateDistance M lat lng la lo ≤ radius ∧
        x = ⟨t, calculateDistance M lat lng la lo⟩ := by
  unfold filterStep
  cases hu : t.user with
  | none => simp
  | some u =>
    obtain ⟨uid, ula, ulo⟩ := u
    cases ula with
    | none => simp [coordTruthy]
    | some la =>
      cases ulo with
      | none => simp [coordTruthy]
      | some lo =>
        by_cases h1 : la = 0
        · simp [coordTruthy, h1]
        · by_cases h2 : lo = 0
          · simp [coordTruthy, h1, h2]
          · by_cases h3 : calculateDistance M lat lng la lo ≤ radius
            · simp [coordTruthy, h1, h2, h3]
              constructor <;> intro h <;> exact h.symm
            · simp [coordTruthy, h1, h2, h3]

/-- A tailor whose user has latitude 0 is dropped by the filter, whatever the
origin and the radius are. -/
theorem filterStep_zero_latitude {α : Type} [LinearOrderedField α] (M : MathFns α)
    (lat lng radius : α) (t : TailorRow α) (u : UserInfo α) (hu : t.user = some u)
    (hz : u.latitude = some 0) : filterStep M lat lng radius t = none := by
  simp [filterStep, hu, hz, coordTruthy]

/-- C25 (evaluation at the failing input): the user of `equatorTailor` has the
numeric coordinates (0, 1); a search from the origin (0, 1) finds it at distance
0, within every radius `radius ≥ 0`, and yet the result is empty for every
radius: the latitude 0 is taken for a missing coordinate. -/
theorem search_drops_equator_tailor :
    calculateDistance
        ⟨Real.sin, Real.cos, Real.sqrt, fun y x => Complex.arg ⟨x, y⟩, Real.pi⟩
        (0 : ℝ) 1 0 1 = 0 ∧
      ∀ (radius : ℝ) (sortBy : Option String),
        searchTailors
          ⟨Real.sin, Real.cos, Real.sqrt, fun y x => Complex.arg ⟨x, y⟩, Real.pi⟩
          ⟨some 0, some 1, some radius, sortBy⟩ [equatorTailor ℝ] =
        SearchResponse.located [] := by
  refine ⟨calculateDistance_same_real 0 1, ?_⟩
  intro radius sortBy
  have hstep : filterStep
      ⟨Real.sin, Real.cos, Real.sqrt, fun y x => Complex.arg ⟨x, y⟩, Real.pi⟩
      (0 : ℝ) 1 radius (equatorTailor ℝ) = none :=
    filterStep_zero_latitude _ _ _ _ _ { id := 5, latitude := some 0, longitude := some 1 }
      rfl rfl
  simp only [searchTailors, Option.getD_some, List.any_cons, List.any_nil, List.filterMap_cons,
    List.filterMap_nil, hstep]
  simp [equatorTailor, sortLocated]

/-- C26: in the radius search, with `F` the filtered candidates (each with its
distance from the origin), the list sorted for `sortBy = 'distance'` is in
non-decreasing order of distance, the list sorted for `sortBy = 'rating'` is in
non-increasing order of rating, both are permutations of `F`, and the route
returns that list whenever every candidate has its user. -/
theorem search_sorted_perm {α : Type} [LinearOrderedField α] (M : MathFns α)
    (lat lng radius : α) (tailors : List (TailorRow α)) :
    (∀ x ∈ tailors.filterMap (filterStep M lat lng radius),
      ∃ u la lo, x.tailor.user = some u ∧ u.latitude = some la ∧ u.longitude = some lo ∧
        x.distance = calculateDistance M lat lng la lo) ∧
    (sortLocated "distance" (tailors.filterMap (filterStep M lat lng radius))).Pairwise
      (fun a b => a.distance ≤ b.distance) ∧
    (sortLocated "distance" (tailors.filterMap (filterStep M lat lng radius))).Perm
      (tailors.filterMap (filterStep M lat lng radius)) ∧
    (sortLocated "rating" (tailors.filterMap (filterStep M lat lng radius))).Pairwise
      (fun a b => b.tailor.rating ≤ a.tailor.rating) ∧
    (sortLocated "rating" (tailors.filterMap (filterStep M lat lng radius))).Perm
      (tailors.filterMap (filterStep M lat lng radius)) ∧
    (∀ sortBy : String, (∀ t ∈ tailors, t.user ≠ none) →
      searchTailors M ⟨some lat, some lng, some radius, some sortBy⟩ tailors =
        SearchResponse.located
          (sortLocated sortBy (tailors.filterMap (filterStep M lat lng radius)))) := by
  refine ⟨?_, ?_, ?_, ?_, ?_, ?_⟩
  · intro x hx
    obtain ⟨t, _, ht⟩ := List.mem_filterMap.mp hx
    obtain ⟨u, la, lo, hu, hla, hlo, _, _, _, hxe⟩ :=
      (filterStep_eq_some M lat lng radius t x).mp ht
    exact ⟨u, la, lo, by rw [hxe]; exact hu, hla, hlo, by rw [hxe]⟩
  · have h := @List.sorted_mergeSort (Located α)
      (fun a b : Located α => decide (a.distance ≤ b.distance))
      (fun a b c hab hbc => by
        simp only [decide_eq_true_eq] at hab hbc ⊢
        exact le_trans hab hbc)
      (fun a b => by
        simp only [Bool.or_eq_true, decide_eq_true_eq]
        exact le_total _ _)
      (tailors.filterMap (filterStep M lat lng radius))
    simp only [sortLocated, if_true]
    exact h.imp (fun hab => by simpa using hab)
  · simp only [sortLocated, if_true]
    exact List.mergeSort_perm _ _
  · have h := @List.sorted_mergeSort (Located α)
      (fun a b : Located α => decide (b.tailor.rating ≤ a.tailor.rating))
      (fun a b c hab hbc => by
        simp only [decide_eq_true_eq] at hab hbc ⊢
        exact le_trans hbc hab)
      (fun a b => by
        simp only [Bool.or_eq_true, decide_eq_true_eq]
        exact le_total _ _)
      (tailors.filterMap (filterStep M lat lng radius))
    have hne : ¬ ("rating" = "distance") := by decide
    simp only [sortLocated, if_neg hne, if_true]
    exact h.imp (fun hab => by simpa using hab)
  · have hne : ¬ ("rating" = "distance") := by decide
    simp only [sortLocated, if_neg hne, if_true]
    exact List.mergeSort_perm _ _
  · intro sortBy hall
    have hany : tailors.any (fun t => t.user.isNone) = false := by
      rw [List.any_eq_false]
      intro t ht
      have := hall t ht
      cases hu : t.user with
      | none => exact absurd hu this
      | some u => simp
    simp only [searchTailors, Option.getD_some, hany, Bool.false_eq_true, if_false]

/-- Witness for C26: a search from the origin (6, 3) over two tailors that have
their users. -/
theorem search_sorted_perm_witness :
    (∀ t ∈ [equatorTailor ℝ, cityTailor ℝ], t.user ≠ none) ∧
      searchTailors
          ⟨Real.sin, Real.cos, Real.sqrt, fun y x => Complex.arg ⟨x, y⟩, Real.pi⟩
          ⟨some 6, some 3, some 10, some "distance"⟩ [equatorTailor ℝ, cityTailor ℝ] =
        SearchResponse.located
          (sortLocated "distance" ([equatorTailor ℝ, cityTailor ℝ].filterMap
            (filterStep
              ⟨Real.sin, Real.cos, Real.sqrt, fun y x => Complex.arg ⟨x, y⟩, Real.pi⟩
              6 3 10))) :=
  have hall : ∀ t ∈ [equatorTailor ℝ, cityTailor ℝ], t.user ≠ none := by
    intro t ht
    simp only [List.mem_cons, List.mem_singleton, List.not_mem_nil, or_false] at ht
    rcases ht with rfl | rfl <;> simp [equatorTailor, cityTailor]
  ⟨hall, (search_sorted_perm
    ⟨Real.sin, Real.cos, Real.sqrt, fun y x => Complex.arg ⟨x, y⟩, Real.pi⟩
    (6 : ℝ) 3 10 [equatorTailor ℝ, cityTailor ℝ]).2.2.2.2.2 "distance" hall⟩

end TailorRoutes

namespace MeasurementRoutes
open Marketplace UnitConversion

/-! ## Default measurement set -/

/-- The call that clears the flag on the other rows of the user throws, on
every table. -/
theorem clearOthers_throws (rows : List MeasurementRow) (u id : Key) :
    clearOthers rows u id = none := rfl

/-- The invariant holds in a table each of whose default rows has the key and
the owner of a default row of a table that satisfies it. -/
theorem atMostOne_of_sub (rows rows2 : List MeasurementRow)
    (h : ∀ r2 ∈ rows2, r2.isDefault = true →
      ∃ r ∈ rows, r.id = r2.id ∧ r.userId = r2.userId ∧ r.isDefault = true)
    (hinv : AtMostOneDefault rows) : AtMostOneDefault rows2 := by
  intro r1 h1 r2 h2 hu hd1 hd2
  obtain ⟨a, ha, hida, hua, hda⟩ := h r1 h1 hd1
  obtain ⟨b, hb, hidb, hub, hdb⟩ := h r2 h2 hd2
  rw [← hida, ← hidb]
  exact hinv a ha b hb (by rw [hua, hub, hu]) hda hdb

/-- A row found under a key is in the table and has that key. -/
theorem find_row (rows : List MeasurementRow) (id : Key) (m : MeasurementRow)
    (h : rows.find? (fun r => decide (r.id = id)) = some m) : m ∈ rows ∧ m.id = id := by
  refine ⟨List.mem_of_find?_eq_some h, ?_⟩
  have := List.find?_some h
  simpa using this

/-- A create that does not ask for the default flag keeps the invariant. -/
theorem create_keeps_without_flag (rows : List MeasurementRow) (userId newId : Key)
    (body : MeasurementBody) (hdef : body.isDefault ≠ some true)
    (hinv : AtMostOneDefault rows) :
    AtMostOneDefault (createMeasurement rows userId newId body).2 := by
  unfold createMeasurement
  cases hn : body.name with
  | none => exact hinv
  | some name =>
    simp only
    split_ifs with hany
    · exact hinv
    · apply atMostOne_of_sub rows _ _ hinv
      intro r2 hr2 hd2
      rcases List.mem_append.mp hr2 with h | h
      · exact ⟨r2, h, rfl, rfl, hd2⟩
      · rw [List.mem_singleton.mp h] at hd2
        simp only at hd2
        cases hb : body.isDefault with
        | none => rw [hb] at hd2; simp at hd2
        | some b =>
          rw [hb] at hd2 hdef
          simp only [Option.getD_some] at hd2
          rw [hd2] at hdef
          exact absurd rfl hdef

/-- An update that does not ask for the default flag keeps the invariant. -/
theorem update_keeps_without_flag (rows : List MeasurementRow) (userId id : Key)
    (body : MeasurementBody) (hdef : body.isDefault ≠ some true)
    (hinv : AtMostOneDefault rows) :
    AtMostOneDefault (updateMeasurement rows userId id body).2 := by
  unfold updateMeasurement
  cases hf : rows.find? (fun r => decide (r.id = id)) with
  | none => exact hinv
  | some m =>
    obtain ⟨hm, _⟩ := find_row rows id m hf
    simp only
    split_ifs with howner
    · exact hinv
    · apply atMostOne_of_sub rows _ _ hinv
      intro r2 hr2 hd2
      obtain ⟨r0, hr0, rfl⟩ := List.mem_map.mp hr2
      by_cases hc : r0.id = m.id
      · simp only [if_pos hc] at hd2 ⊢
        cases hb : body.isDefault with
        | none =>
          rw [hb] at hd2
          simp only [Option.getD_none] at hd2
          exact ⟨m, hm, rfl, rfl, hd2⟩
        | some b =>
          rw [hb] at hd2 hdef
          simp only [Option.getD_some] at hd2
          rw [hd2] at hdef
          exact absurd rfl hdef
      · simp only [if_neg hc] at hd2 ⊢
        exact ⟨r0, hr0, rfl, rfl, hd2⟩

/-- The delete route keeps the invariant. -/
theorem delete_keeps (rows : List MeasurementRow) (userId id : Key)
    (hinv : AtMostOneDefault rows) : AtMostOneDefault (deleteMeasurement rows userId id).2 := by
  unfold deleteMeasurement
  cases hf : rows.find? (fun r => decide (r.id = id)) with
  | none => exact hinv
  | some m =>
    simp only
    split_ifs
    · exact hinv
    · apply atMostOne_of_sub rows _ _ hinv
      intro r2 hr2 hd2
      exact ⟨r2, List.mem_of_mem_filter hr2, rfl, rfl, hd2⟩

/-- No create that asks for the default flag is answered with the new row: the
answer is 500 `Server Error`. -/
theorem create_with_flag_fails (rows : List MeasurementRow) (userId newId : Key)
    (body : MeasurementBody) (hdef : body.isDefault = some true) :
    (createMeasurement rows userId newId body).1 = Reply.serverError := by
  unfold createMeasurement
  cases hn : body.name with
  | none => rfl
  | some name =>
    simp only [hdef, if_true, clearOthers_throws]
    split_ifs <;> rfl

/-- No update of a row of the caller that asks for the default flag is
answered with the updated row: the answer is 500 `Server Error`. -/
theorem update_with_flag_fails (rows : List MeasurementRow) (userId id : Key)
    (body : MeasurementBody) (m : MeasurementRow) (hdef : body.isDefault = some true)
    (hf : rows.find? (fun r => decide (r.id = id)) = some m) (hown : m.userId = userId) :
    (updateMeasurement rows userId id body).1 = Reply.serverError := by
  unfold updateMeasurement
  rw [hf]
  simp only [hdef, if_true, clearOthers_throws]
  rw [if_neg (not_not.mpr hown)]

/-- The table `sampleRows` has at most one default set per owner. -/
theorem sampleRows_atMostOne : AtMostOneDefault sampleRows := by
  intro r1 h1 r2 h2 hu hd1 hd2
  simp only [sampleRows, List.mem_cons, List.mem_singleton, List.not_mem_nil, or_false]
    at h1 h2
  rcases h1 with rfl | rfl | rfl <;> rcases h2 with rfl | rfl | rfl <;> simp_all

/-- A table in which a user has two default rows with different keys does not
satisfy the invariant. -/
theorem not_atMostOne_of_two (rows : List MeasurementRow) (u a b : Key) (hab : a ≠ b)
    (ha : a ∈ defaultIds rows u) (hb : b ∈ defaultIds rows u) : ¬ AtMostOneDefault rows := by
  intro hinv
  simp only [defaultIds, List.mem_map, List.mem_filter, Bool.and_eq_true,
    decide_eq_true_eq] at ha hb
  obtain ⟨r1, ⟨h1, hu1, hd1⟩, rfl⟩ := ha
  obtain ⟨r2, ⟨h2, hu2, hd2⟩, rfl⟩ := hb
  exact hab (hinv r1 h1 r2 h2 (hu1.trans hu2.symm) hd1 hd2)

/-- C27 (code bug): user 3, whose only default set is set 1, creates set 9
with the default flag: the new row is stored with the flag, the call that
should clear the flag on the siblings throws, the answer is 500 and the user
has the two default sets 1 and 9. The same user updating set 2 with the flag
gets 500 and the two default sets 1 and 2. In both cases the table satisfied
"at most one default measurement set per owner" before the request and does
not satisfy it after. -/
theorem default_flag_not_cleared :
    AtMostOneDefault sampleRows ∧ defaultIds sampleRows 3 = [1] ∧
      (handle sampleRows (Request.create 3 9 defaultBody)).1 = Reply.serverError ∧
      defaultIds (handle sampleRows (Request.create 3 9 defaultBody)).2 3 = [1, 9] ∧
      ¬ AtMostOneDefault (handle sampleRows (Request.create 3 9 defaultBody)).2 ∧
      (handle sampleRows (Request.update 3 2 defaultBody)).1 = Reply.serverError ∧
      defaultIds (handle sampleRows (Request.update 3 2 defaultBody)).2 3 = [1, 2] ∧
      ¬ AtMostOneDefault (handle sampleRows (Request.update 3 2 defaultBody)).2 := by
  have hc : defaultIds (handle sampleRows (Request.create 3 9 defaultBody)).2 3 = [1, 9] := rfl
  have hu : defaultIds (handle sampleRows (Request.update 3 2 defaultBody)).2 3 = [1, 2] := rfl
  refine ⟨sampleRows_atMostOne, rfl, rfl, hc, ?_, rfl, hu, ?_⟩
  · exact not_atMostOne_of_two _ 3 1 9 (by decide) (by rw [hc]; decide) (by rw [hc]; decide)
  · exact not_atMostOne_of_two _ 3 1 2 (by decide) (by rw [hu]; decide) (by rw [hu]; decide)

end MeasurementRoutes
